import Mathlib

/-!
# Verification of the dungeon-crawler game engine

A shallow embedding, in Lean 4, of the core of the `Xrpg-backend` repository:
the procedural dungeon generator (`internal/generator/procgen.go`), the
game-state model (`internal/game/state.go`, `internal/game/types.go`), the
combat resolver (`internal/game/combat.go`) and the tool-dispatch layer
(`internal/mcp/server.go`).

Modelling conventions:
* Go's seeded `math/rand` source is modelled as an abstract stream of draws: a
  function `Nat → Nat` feeding `Intn` (reduced modulo the bound, so any stream
  yields in-range results) plus a function `Nat → Bool` giving the outcome of
  each `Float32()/Float64()` threshold comparison, with a cursor.  Theorems
  quantify over all streams, which covers every seed.
* Go iterates some maps in unspecified order; the embedding fixes a row-major
  order for those iterations.
* `crypto/rand`-generated entity IDs are opaque unique tokens; the embedding
  draws them from a deterministic counter (rooms get `y*5+x`).
* Machine integers are `Int`/`Nat`; quantities that are non-negative at every
  call site in the source (stat values, damage amounts, healing amounts) are
  `Nat`, so Go's truncating division on them coincides with `Nat` division.
-/

namespace Xrpg

/-- Cardinal directions, the `"north" | "south" | "east" | "west"` strings of
`procgen.go`. -/
inductive Dir
  | north
  | south
  | east
  | west
deriving DecidableEq, Repr

/-- `oppositeDir` from `procgen.go`. -/
def Dir.opposite : Dir → Dir
  | .north => .south
  | .south => .north
  | .east => .west
  | .west => .east

/-- The direction strings, used where the game layer stores directions as
strings. -/
def Dir.toName : Dir → String
  | .north => "north"
  | .south => "south"
  | .east => "east"
  | .west => "west"

/-- A grid position (`coord` in `procgen.go`); `Int` coordinates, as the Go
`int` fields can go (transiently) negative via `getNeighbor`. -/
abbrev Coord := Int × Int

/-- `getNeighbor` from `procgen.go`. -/
def getNeighbor (c : Coord) : Dir → Coord
  | .north => (c.1, c.2 + 1)
  | .south => (c.1, c.2 - 1)
  | .east => (c.1 + 1, c.2)
  | .west => (c.1 - 1, c.2)

/-- `GridSize = 5` from `procgen.go`. -/
def gridSize : Nat := 5

/-- The in-bounds test used by `addFrontierEdges`
(`neighbor.x >= 0 && neighbor.x < GridSize && ...`). -/
def inGridB (c : Coord) : Bool :=
  0 ≤ c.1 && c.1 < (gridSize : Int) && 0 ≤ c.2 && c.2 < (gridSize : Int)

/-- Propositional form of `inGridB`. -/
def InGrid (c : Coord) : Prop :=
  0 ≤ c.1 ∧ c.1 < (gridSize : Int) ∧ 0 ≤ c.2 ∧ c.2 < (gridSize : Int)

instance (c : Coord) : Decidable (InGrid c) := by
  unfold InGrid; infer_instance

theorem inGridB_iff (c : Coord) : inGridB c = true ↔ InGrid c := by
  simp [inGridB, InGrid, and_assoc]

/-- The abstract seeded random source (see the module docstring): `nats i`
feeds the `i`-th `Intn` call, `bools i` is the outcome of the `i`-th
float-threshold comparison, `idx` is the cursor. -/
structure Rng where
  nats : Nat → Nat
  bools : Nat → Bool
  idx : Nat

/-- `random.Intn n`: next draw, reduced into `[0, n)`. -/
def Rng.intn (r : Rng) (n : Nat) : Nat × Rng :=
  (r.nats r.idx % n, { r with idx := r.idx + 1 })

/-- Outcome of a `random.Float32() < p` (or `Float64`) comparison. -/
def Rng.chance (r : Rng) : Bool × Rng :=
  (r.bools r.idx, { r with idx := r.idx + 1 })

/-- The all-zero random stream (a convenient concrete instance). -/
def zeroRng : Rng := ⟨fun _ => 0, fun _ => false, 0⟩

/-- An `edge` record of `procgen.go`: `from`, `to`, `direction`. -/
structure Edge where
  src : Coord
  dst : Coord
  dir : Dir
deriving DecidableEq, Repr

/-- The `edges` map of `generateConnections`
(`coord -> direction -> exists`). -/
def EdgeSet := Coord → Dir → Bool

/-- `edges[c][d] = true`. -/
def setEdge (es : EdgeSet) (c : Coord) (d : Dir) : EdgeSet :=
  fun c' d' => if c' = c ∧ d' = d then true else es c' d'

/-- The direction iteration order of `addFrontierEdges`. -/
def dirList : List Dir := [.north, .south, .east, .west]

/-- `addFrontierEdges` from `procgen.go`: all edges from `c` to in-bounds
unvisited neighbors, in direction order. -/
def frontierEdges (c : Coord) (visited : Finset Coord) : List Edge :=
  dirList.filterMap fun d =>
    let nb := getNeighbor c d
    if inGridB nb = true ∧ nb ∉ visited then some ⟨c, nb, d⟩ else none

/-- The loop state of step 1 of `generateConnections` (randomized Prim's). -/
structure PrimState where
  visited : Finset Coord
  frontier : List Edge
  edges : EdgeSet

/-- The entrance cell `(0,0)`. -/
def entrance : Coord := (0, 0)

/-- A placeholder edge (the loop only indexes in bounds). -/
def dummyEdge : Edge := ⟨entrance, entrance, .north⟩

/-- One-per-iteration transcription of the `for len(frontier) > 0` loop in
`generateConnections`, fuel-indexed.  Each iteration draws a random index,
removes that frontier edge, and either skips it (target already visited) or
commits it in both directions and expands the frontier. -/
def primLoop : Nat → PrimState → Rng → PrimState × Rng
  | 0, s, r => (s, r)
  | fuel + 1, s, r =>
    if s.frontier = [] then (s, r)
    else
      let p := r.intn s.frontier.length
      let e := s.frontier.getD p.1 dummyEdge
      let frontier' := s.frontier.eraseIdx p.1
      if e.dst ∈ s.visited then
        primLoop fuel { s with frontier := frontier' } p.2
      else
        let visited' := insert e.dst s.visited
        primLoop fuel
          { visited := visited'
            frontier := frontier' ++ frontierEdges e.dst visited'
            edges := setEdge (setEdge s.edges e.src e.dir) e.dst e.dir.opposite }
          p.2

/-- Initial Prim state: entrance visited, its frontier edges, no edges. -/
def primInit : PrimState :=
  { visited := {entrance}
    frontier := frontierEdges entrance {entrance}
    edges := fun _ _ => false }

/-- Fuel bound for the Prim loop; `primLoop_complete` shows the loop always
drains its frontier well within this bound. -/
def primFuel : Nat := 200

/-- Row-major enumeration of the 5x5 grid, fixing the order in which the
embedding walks the Go `roomGrid` map (the same `y`-outer `x`-inner order as
`generateGrid`). -/
def gridCells : List Coord :=
  ((List.range gridSize).map fun y : Nat =>
    (List.range gridSize).map fun x : Nat => ((x : Int), (y : Int))).flatten

/-- `doorCounts[c] = len(edges[c])`: the number of directions with a door. -/
def doorCount (es : EdgeSet) (c : Coord) : Nat :=
  dirList.countP fun d => es c d

/-- The direction order `{"north", "east"}` of `getPossibleEdges`. -/
def extraDirs : List Dir := [.north, .east]

/-- `getPossibleEdges` from `procgen.go`: absent grid edges, checked in two
directions only to avoid duplicates. -/
def possibleEdges (es : EdgeSet) : List Edge :=
  gridCells.flatMap fun c =>
    extraDirs.filterMap fun d =>
      let nb := getNeighbor c d
      if inGridB nb = true ∧ es c d = false then some ⟨c, nb, d⟩ else none

/-- Swap two list positions (the `edges[i], edges[j] = edges[j], edges[i]` of
`shuffleEdges`). -/
def swapIdx (l : List Edge) (i j : Nat) : List Edge :=
  (l.set i (l.getD j dummyEdge)).set j (l.getD i dummyEdge)

/-- The Fisher-Yates downward loop of `shuffleEdges`; the argument is the
current loop index `i` (the loop body runs for `i = len-1, ..., 1`). -/
def shuffleAux : Nat → List Edge → Rng → List Edge × Rng
  | 0, l, r => (l, r)
  | im1 + 1, l, r =>
    let p := r.intn (im1 + 2)
    shuffleAux im1 (swapIdx l (im1 + 1) p.1) p.2

/-- `shuffleEdges` from `procgen.go`. -/
def shuffleEdges (l : List Edge) (r : Rng) : List Edge × Rng :=
  shuffleAux (l.length - 1) l r

/-- Step 2 of `generateConnections`: walk the shuffled candidate edges and
greedily add some, capped at 3 doors per endpoint, tracking `doorCounts`
incrementally exactly as the Go code does. -/
def addExtraEdges : List Edge → EdgeSet → (Coord → Nat) → Rng → EdgeSet × (Coord → Nat) × Rng
  | [], es, dc, r => (es, dc, r)
  | e :: rest, es, dc, r =>
    let fromDoors := dc e.src
    let toDoors := dc e.dst
    if 3 ≤ fromDoors ∨ 3 ≤ toDoors then
      addExtraEdges rest es dc r
    else
      let p : Bool × Rng :=
        if fromDoors = 1 then r.chance
        else if fromDoors = 2 then r.chance
        else (false, r)
      if p.1 then
        addExtraEdges rest
          (setEdge (setEdge es e.src e.dir) e.dst e.dir.opposite)
          (fun c => if c = e.src ∨ c = e.dst then dc c + 1 else dc c)
          p.2
      else
        addExtraEdges rest es dc p.2

/-- `generateConnections` from `procgen.go`: spanning tree, then extra doors.
Returns the final `edges` map. -/
def generateConnections (r : Rng) : EdgeSet × Rng :=
  let t := primLoop primFuel primInit r
  let dc := fun c => doorCount t.1.edges c
  let sh := shuffleEdges (possibleEdges t.1.edges) t.2
  let ex := addExtraEdges sh.1 t.1.edges dc sh.2
  (ex.1, ex.2.2)

/-- A connection record at coordinate level (step 3 of `generateConnections`
emits one `RoomConnection` per room/direction pair whose neighbor exists). -/
structure ConnRec where
  src : Coord
  dir : Dir
  dst : Coord
deriving DecidableEq, Repr

/-- Step 3 of `generateConnections`: the edge map flattened to connection
records. -/
def connectionsOf (es : EdgeSet) : List ConnRec :=
  gridCells.flatMap fun c =>
    dirList.filterMap fun d =>
      if es c d = true ∧ inGridB (getNeighbor c d) = true then
        some ⟨c, d, getNeighbor c d⟩
      else none

/-- One hop along a recorded door. -/
def EdgeStep (es : EdgeSet) (a b : Coord) : Prop :=
  ∃ d, es a d = true ∧ b = getNeighbor a d

/-- Reachability through the recorded doors. -/
def Reach (es : EdgeSet) (a b : Coord) : Prop :=
  Relation.ReflTransGen (EdgeStep es) a b

/-! ## Generator lemmas -/

theorem opposite_opposite (d : Dir) : d.opposite.opposite = d := by
  cases d <;> rfl

theorem neighbor_opposite (c : Coord) (d : Dir) :
    getNeighbor (getNeighbor c d) d.opposite = c := by
  cases d <;> simp [getNeighbor, Dir.opposite]

theorem mem_dirList (d : Dir) : d ∈ dirList := by
  cases d <;> decide

theorem setEdge_lookup (es : EdgeSet) (c : Coord) (d : Dir) (c' : Coord) (d' : Dir) :
    setEdge es c d c' d' = true ↔ (c' = c ∧ d' = d) ∨ es c' d' = true := by
  unfold setEdge
  split <;> simp_all

/-- Pointwise inclusion of edge maps. -/
def EdgeLE (es es' : EdgeSet) : Prop :=
  ∀ c d, es c d = true → es' c d = true

theorem edgeLE_refl (es : EdgeSet) : EdgeLE es es := fun _ _ h => h

theorem edgeLE_trans {e1 e2 e3 : EdgeSet} (h1 : EdgeLE e1 e2) (h2 : EdgeLE e2 e3) :
    EdgeLE e1 e3 := fun c d h => h2 c d (h1 c d h)

theorem edgeLE_setEdge (es : EdgeSet) (c : Coord) (d : Dir) :
    EdgeLE es (setEdge es c d) := by
  intro c' d' h
  rw [setEdge_lookup]
  exact Or.inr h

theorem setEdge_self (es : EdgeSet) (c : Coord) (d : Dir) :
    setEdge es c d c d = true := by
  rw [setEdge_lookup]
  exact Or.inl ⟨rfl, rfl⟩

theorem reach_mono {es es' : EdgeSet} (hle : EdgeLE es es') {a b : Coord}
    (h : Reach es a b) : Reach es' a b := by
  induction h with
  | refl => exact Relation.ReflTransGen.refl
  | tail _ hstep ih =>
    obtain ⟨d, hd, rfl⟩ := hstep
    exact ih.tail ⟨d, hle _ d hd, rfl⟩

theorem getD_mem_of_lt {α : Type} (l : List α) (d : α) (n : Nat) (h : n < l.length) :
    l.getD n d ∈ l := by
  rw [List.getD_eq_getElem l d h]
  exact List.getElem_mem h

theorem mem_eraseIdx_of_ne {α : Type} (d : α) :
    ∀ (l : List α) (n : Nat) (x : α), x ∈ l → x ≠ l.getD n d → x ∈ l.eraseIdx n
  | [], _, _, hx, _ => by cases hx
  | a :: t, 0, x, hx, hne => by
    rcases List.mem_cons.mp hx with rfl | hxt
    · exact absurd rfl hne
    · simpa [List.eraseIdx] using hxt
  | a :: t, n + 1, x, hx, hne => by
    rcases List.mem_cons.mp hx with rfl | hxt
    · simp [List.eraseIdx]
    · simp only [List.eraseIdx, List.mem_cons]
      exact Or.inr (mem_eraseIdx_of_ne d t n x hxt (by simpa [List.getD] using hne))

theorem mem_frontierEdges (c : Coord) (V : Finset Coord) (e : Edge) :
    e ∈ frontierEdges c V ↔
      ∃ d, inGridB (getNeighbor c d) = true ∧ getNeighbor c d ∉ V ∧
        e = ⟨c, getNeighbor c d, d⟩ := by
  unfold frontierEdges
  rw [List.mem_filterMap]
  constructor
  · rintro ⟨d, -, hd⟩
    simp only at hd
    split at hd
    · exact ⟨d, by tauto, by tauto, by injection hd with h; exact h.symm⟩
    · cases hd
  · rintro ⟨d, h1, h2, rfl⟩
    exact ⟨d, mem_dirList d, by simp [h1, h2]⟩

theorem length_frontierEdges_le (c : Coord) (V : Finset Coord) :
    (frontierEdges c V).length ≤ 4 :=
  List.length_filterMap_le _ _

/-- The 25 grid cells as a finite set. -/
def gridFinset : Finset Coord :=
  (Finset.range gridSize ×ˢ Finset.range gridSize).image
    fun p => ((p.1 : Int), (p.2 : Int))

theorem mem_gridFinset {c : Coord} : c ∈ gridFinset ↔ InGrid c := by
  unfold gridFinset InGrid
  simp only [Finset.mem_image, Finset.mem_product, Finset.mem_range]
  constructor
  · rintro ⟨⟨i, j⟩, ⟨hi, hj⟩, rfl⟩
    refine ⟨by positivity, ?_, by positivity, ?_⟩ <;> simp [gridSize] at * <;> omega
  · rintro ⟨h1, h2, h3, h4⟩
    refine ⟨(c.1.toNat, c.2.toNat), ⟨?_, ?_⟩, ?_⟩
    · simp [gridSize] at h2 ⊢; omega
    · simp [gridSize] at h4 ⊢; omega
    · simp [Int.toNat_of_nonneg h1, Int.toNat_of_nonneg h3]

theorem card_gridFinset : gridFinset.card = 25 := by decide

/-- The loop variant of the Prim loop: it strictly decreases each iteration. -/
def primMeasure (s : PrimState) : Nat :=
  5 * (25 - s.visited.card) + s.frontier.length

/-- Invariant of the Prim loop (step 1 of `generateConnections`). -/
structure PrimInv (s : PrimState) : Prop where
  entrance_vis : entrance ∈ s.visited
  vis_grid : ∀ c ∈ s.visited, InGrid c
  frontier_src : ∀ e ∈ s.frontier, e.src ∈ s.visited
  frontier_dst : ∀ e ∈ s.frontier, InGrid e.dst
  frontier_nb : ∀ e ∈ s.frontier, e.dst = getNeighbor e.src e.dir
  edges_vis : ∀ c d, s.edges c d = true → c ∈ s.visited ∧ getNeighbor c d ∈ s.visited
  edges_symm : ∀ c d, s.edges c d = true → s.edges (getNeighbor c d) d.opposite = true
  reach_vis : ∀ c ∈ s.visited, Reach s.edges entrance c
  complete : ∀ u, InGrid u → u ∉ s.visited → ∀ v ∈ s.visited, ∀ d : Dir,
    getNeighbor v d = u → ∃ e ∈ s.frontier, e.src = v ∧ e.dst = u

/-- The state after a Prim iteration whose drawn edge targets a visited cell. -/
def primSkip (s : PrimState) (k : Nat) : PrimState :=
  { s with frontier := s.frontier.eraseIdx k }

/-- The state after a Prim iteration that commits its drawn edge. -/
def primCommit (s : PrimState) (k : Nat) : PrimState :=
  let e := s.frontier.getD k dummyEdge
  let visited' := insert e.dst s.visited
  { visited := visited'
    frontier := s.frontier.eraseIdx k ++ frontierEdges e.dst visited'
    edges := setEdge (setEdge s.edges e.src e.dir) e.dst e.dir.opposite }

theorem primLoop_succ (fuel : Nat) (s : PrimState) (r : Rng) (hne : s.frontier ≠ []) :
    primLoop (fuel + 1) s r =
      if (s.frontier.getD (r.nats r.idx % s.frontier.length) dummyEdge).dst ∈ s.visited then
        primLoop fuel (primSkip s (r.nats r.idx % s.frontier.length))
          ⟨r.nats, r.bools, r.idx + 1⟩
      else
        primLoop fuel (primCommit s (r.nats r.idx % s.frontier.length))
          ⟨r.nats, r.bools, r.idx + 1⟩ := by
  simp only [primLoop, hne, if_false, Rng.intn, primSkip, primCommit]

theorem primInv_skip {s : PrimState} (hI : PrimInv s) {k : Nat}
    (hvis : (s.frontier.getD k dummyEdge).dst ∈ s.visited) :
    PrimInv (primSkip s k) := by
  obtain ⟨h1, h2, h3, h4, h5, h6, h7, h8, h9⟩ := hI
  refine ⟨h1, h2, ?_, ?_, ?_, h6, h7, h8, ?_⟩
  · intro x hx; exact h3 x (List.eraseIdx_subset _ _ hx)
  · intro x hx; exact h4 x (List.eraseIdx_subset _ _ hx)
  · intro x hx; exact h5 x (List.eraseIdx_subset _ _ hx)
  · intro u hu hnu v hv d hnb
    obtain ⟨e', he', hesrc, hedst⟩ := h9 u hu hnu v hv d hnb
    refine ⟨e', ?_, hesrc, hedst⟩
    refine mem_eraseIdx_of_ne dummyEdge _ _ _ he' ?_
    intro heq
    rw [heq] at hedst
    exact hnu (hedst ▸ hvis)

theorem primInv_commit {s : PrimState} (hI : PrimInv s) {k : Nat}
    (hk : k < s.frontier.length) :
    PrimInv (primCommit s k) := by
  set e := s.frontier.getD k dummyEdge with he_def
  have he_mem : e ∈ s.frontier := getD_mem_of_lt _ _ _ hk
  have hsrc : e.src ∈ s.visited := hI.frontier_src e he_mem
  have hdstg : InGrid e.dst := hI.frontier_dst e he_mem
  have hnb : e.dst = getNeighbor e.src e.dir := hI.frontier_nb e he_mem
  have hback : getNeighbor e.dst e.dir.opposite = e.src := by
    rw [hnb]; exact neighbor_opposite _ _
  have hlookup : ∀ c d, (primCommit s k).edges c d = true ↔
      (c = e.dst ∧ d = e.dir.opposite) ∨ (c = e.src ∧ d = e.dir) ∨ s.edges c d = true := by
    intro c d
    show setEdge (setEdge s.edges e.src e.dir) e.dst e.dir.opposite c d = true ↔ _
    rw [setEdge_lookup, setEdge_lookup]
  have hle : EdgeLE s.edges (primCommit s k).edges := by
    intro c d h
    exact (hlookup c d).mpr (Or.inr (Or.inr h))
  refine ⟨?_, ?_, ?_, ?_, ?_, ?_, ?_, ?_, ?_⟩
  · exact Finset.mem_insert_of_mem hI.entrance_vis
  · intro c hc
    rcases Finset.mem_insert.mp hc with rfl | hc'
    · exact hdstg
    · exact hI.vis_grid c hc'
  · intro x hx
    rcases List.mem_append.mp hx with hx' | hx'
    · exact Finset.mem_insert_of_mem (hI.frontier_src x (List.eraseIdx_subset _ _ hx'))
    · obtain ⟨d, -, -, rfl⟩ := (mem_frontierEdges _ _ _).mp hx'
      exact Finset.mem_insert_self _ _
  · intro x hx
    rcases List.mem_append.mp hx with hx' | hx'
    · exact hI.frontier_dst x (List.eraseIdx_subset _ _ hx')
    · obtain ⟨d, hg, -, rfl⟩ := (mem_frontierEdges _ _ _).mp hx'
      exact (inGridB_iff _).mp hg
  · intro x hx
    rcases List.mem_append.mp hx with hx' | hx'
    · exact hI.frontier_nb x (List.eraseIdx_subset _ _ hx')
    · obtain ⟨d, -, -, rfl⟩ := (mem_frontierEdges _ _ _).mp hx'
      rfl
  · intro c d hcd
    rcases (hlookup c d).mp hcd with ⟨rfl, rfl⟩ | ⟨rfl, rfl⟩ | hold
    · exact ⟨Finset.mem_insert_self _ _,
        hback ▸ Finset.mem_insert_of_mem hsrc⟩
    · refine ⟨Finset.mem_insert_of_mem hsrc, ?_⟩
      rw [← hnb]
      exact Finset.mem_insert_self _ _
    · obtain ⟨ha, hb⟩ := hI.edges_vis c d hold
      exact ⟨Finset.mem_insert_of_mem ha, Finset.mem_insert_of_mem hb⟩
  · intro c d hcd
    rcases (hlookup c d).mp hcd with ⟨rfl, rfl⟩ | ⟨rfl, rfl⟩ | hold
    · rw [hback, opposite_opposite]
      exact (hlookup _ _).mpr (Or.inr (Or.inl ⟨rfl, rfl⟩))
    · rw [← hnb]
      exact (hlookup _ _).mpr (Or.inl ⟨rfl, rfl⟩)
    · exact (hlookup _ _).mpr (Or.inr (Or.inr (hI.edges_symm c d hold)))
  · intro c hc
    rcases Finset.mem_insert.mp hc with rfl | hc'
    · refine (reach_mono hle (hI.reach_vis e.src hsrc)).tail ?_
      exact ⟨e.dir, (hlookup _ _).mpr (Or.inr (Or.inl ⟨rfl, rfl⟩)), hnb⟩
    · exact reach_mono hle (hI.reach_vis c hc')
  · intro u hu hnu v hv d hnbv
    have hnu' : u ∉ s.visited := fun h => hnu (Finset.mem_insert_of_mem h)
    have hune : u ≠ e.dst := fun h => hnu (h ▸ Finset.mem_insert_self _ _)
    rcases Finset.mem_insert.mp hv with rfl | hv'
    · subst hnbv
      refine ⟨⟨e.dst, getNeighbor e.dst d, d⟩, ?_, rfl, rfl⟩
      refine List.mem_append.mpr (Or.inr ?_)
      rw [mem_frontierEdges]
      exact ⟨d, (inGridB_iff _).mpr hu, hnu, rfl⟩
    · obtain ⟨e', he', hesrc, hedst⟩ := hI.complete u hu hnu' v hv' d hnbv
      refine ⟨e', List.mem_append.mpr (Or.inl ?_), hesrc, hedst⟩
      refine mem_eraseIdx_of_ne dummyEdge _ _ _ he' ?_
      intro heq
      rw [heq] at hedst
      exact hune (hedst.symm ▸ rfl)

theorem primLoop_spec (fuel : Nat) :
    ∀ (s : PrimState) (r : Rng), PrimInv s → primMeasure s ≤ fuel →
      PrimInv (primLoop fuel s r).1 ∧ (primLoop fuel s r).1.frontier = [] := by
  induction fuel with
  | zero =>
    intro s r hI hm
    have hlen : s.frontier.length = 0 := by
      unfold primMeasure at hm; omega
    exact ⟨hI, List.length_eq_zero.mp hlen⟩
  | succ fuel ih =>
    intro s r hI hm
    by_cases hne : s.frontier = []
    · have hstop : primLoop (fuel + 1) s r = (s, r) := by
        simp [primLoop, hne]
      rw [hstop]
      exact ⟨hI, hne⟩
    · have hlenpos : 0 < s.frontier.length := List.length_pos.mpr hne
      rw [primLoop_succ fuel s r hne]
      set k := r.nats r.idx % s.frontier.length with hk_def
      have hk : k < s.frontier.length := Nat.mod_lt _ hlenpos
      have hcard : s.visited.card ≤ 25 := by
        rw [← card_gridFinset]
        exact Finset.card_le_card fun c hc => mem_gridFinset.mpr (hI.vis_grid c hc)
      have herase : (s.frontier.eraseIdx k).length = s.frontier.length - 1 := by
        rw [List.length_eraseIdx]; simp [hk]
      by_cases hvis : (s.frontier.getD k dummyEdge).dst ∈ s.visited
      · rw [if_pos hvis]
        refine ih _ _ (primInv_skip hI hvis) ?_
        simp only [primMeasure, primSkip] at hm ⊢
        simp only [herase]
        omega
      · rw [if_neg hvis]
        refine ih _ _ (primInv_commit hI hk) ?_
        have hdstg : InGrid (s.frontier.getD k dummyEdge).dst :=
          hI.frontier_dst _ (getD_mem_of_lt _ _ _ hk)
        have hcardlt : s.visited.card < 25 := by
          rw [← card_gridFinset]
          refine Finset.card_lt_card ⟨fun c hc => mem_gridFinset.mpr (hI.vis_grid c hc), ?_⟩
          intro hsup
          exact hvis (hsup (mem_gridFinset.mpr hdstg))
        have hins : (insert (s.frontier.getD k dummyEdge).dst s.visited).card =
            s.visited.card + 1 := Finset.card_insert_of_not_mem hvis
        have hfe : (frontierEdges (s.frontier.getD k dummyEdge).dst
            (insert (s.frontier.getD k dummyEdge).dst s.visited)).length ≤ 4 :=
          length_frontierEdges_le _ _
        simp only [primMeasure, primCommit] at hm ⊢
        simp only [List.length_append, herase, hins]
        omega

/-- A subset of the grid that contains the entrance and has no outgoing
neighbor relation into its complement contains the whole grid. -/
theorem visited_closed (V : Finset Coord)
    (h0 : entrance ∈ V)
    (hcl : ∀ u, InGrid u → u ∉ V → ∀ v ∈ V, ∀ d : Dir, getNeighbor v d ≠ u) :
    ∀ c : Coord, InGrid c → c ∈ V := by
  have hstep : ∀ v ∈ V, ∀ d : Dir, InGrid (getNeighbor v d) → getNeighbor v d ∈ V := by
    intro v hv d hg
    by_contra hnv
    exact hcl _ hg hnv v hv d rfl
  have hcol : ∀ j : Nat, j < 5 → ((0 : Int), (j : Int)) ∈ V := by
    intro j
    induction j with
    | zero => intro _; exact h0
    | succ j ihj =>
      intro hj
      have h1 : InGrid (getNeighbor ((0 : Int), (j : Int)) Dir.north) := by
        simp [InGrid, getNeighbor, gridSize]; omega
      have h2 := hstep _ (ihj (by omega)) Dir.north h1
      push_cast
      simpa [getNeighbor] using h2
  have hgrid : ∀ i j : Nat, i < 5 → j < 5 → ((i : Int), (j : Int)) ∈ V := by
    intro i
    induction i with
    | zero => intro j _ hj; simpa using hcol j hj
    | succ i ihi =>
      intro j hi hj
      have h1 : InGrid (getNeighbor ((i : Int), (j : Int)) Dir.east) := by
        simp [InGrid, getNeighbor, gridSize]; omega
      have h2 := hstep _ (ihi j (by omega) hj) Dir.east h1
      push_cast
      simpa [getNeighbor] using h2
  intro c hc
  obtain ⟨h1, h2, h3, h4⟩ := hc
  have h5 : c.1.toNat < 5 := by simp [gridSize] at h2; omega
  have h6 : c.2.toNat < 5 := by simp [gridSize] at h4; omega
  have h7 := hgrid c.1.toNat c.2.toNat h5 h6
  rwa [Int.toNat_of_nonneg h1, Int.toNat_of_nonneg h3, Prod.mk.eta] at h7

theorem primInv_init : PrimInv primInit := by
  refine ⟨?_, ?_, ?_, ?_, ?_, ?_, ?_, ?_, ?_⟩
  · decide
  · decide
  · decide
  · decide
  · decide
  · intro c d h
    simp [primInit] at h
  · intro c d h
    simp [primInit] at h
  · intro c hc
    have : c = entrance := by
      simpa [primInit] using hc
    subst this
    exact Relation.ReflTransGen.refl
  · intro u hu hnu v hv d hnb
    have hv' : v = entrance := by
      simpa [primInit] using hv
    subst hv'
    subst hnb
    cases d <;> revert hu hnu <;> decide

/-- The spanning-tree stage of `generateConnections`. -/
def primResult (r : Rng) : PrimState × Rng := primLoop primFuel primInit r

theorem primResult_inv (r : Rng) :
    PrimInv (primResult r).1 ∧ (primResult r).1.frontier = [] :=
  primLoop_spec primFuel primInit r primInv_init (by decide)

theorem primResult_all_visited (r : Rng) (c : Coord) (hc : InGrid c) :
    c ∈ (primResult r).1.visited := by
  obtain ⟨hI, hf⟩ := primResult_inv r
  refine visited_closed _ hI.entrance_vis ?_ c hc
  intro u hu hnu v hv d hnb
  obtain ⟨e, he, -⟩ := hI.complete u hu hnu v hv d hnb
  rw [hf] at he
  cases he

theorem addExtraEdges_le :
    ∀ (l : List Edge) (es : EdgeSet) (dc : Coord → Nat) (r : Rng),
      EdgeLE es (addExtraEdges l es dc r).1
  | [], es, _, _ => edgeLE_refl es
  | e :: rest, es, dc, r => by
    have haccept : ∀ (es' : EdgeSet) (dc' : Coord → Nat) (r' : Rng),
        EdgeLE es (addExtraEdges rest (setEdge (setEdge es e.src e.dir) e.dst e.dir.opposite)
          dc' r').1 :=
      fun es' dc' r' => edgeLE_trans
        (edgeLE_trans (edgeLE_setEdge es e.src e.dir)
          (edgeLE_setEdge (setEdge es e.src e.dir) e.dst e.dir.opposite))
        (addExtraEdges_le rest _ dc' r')
    unfold addExtraEdges
    dsimp only
    split
    · exact addExtraEdges_le rest es dc r
    · by_cases h1 : dc e.src = 1
      · rw [if_pos h1]
        split
        · exact haccept es _ _
        · exact addExtraEdges_le rest es dc _
      · by_cases h2 : dc e.src = 2
        · rw [if_neg h1, if_pos h2]
          split
          · exact haccept es _ _
          · exact addExtraEdges_le rest es dc _
        · rw [if_neg h1, if_neg h2]
          exact addExtraEdges_le rest es dc _

theorem edgeLE_generate (r : Rng) :
    EdgeLE (primResult r).1.edges (generateConnections r).1 := by
  simp only [generateConnections, primResult]
  exact addExtraEdges_le _ _ _ _

theorem reach_generate (r : Rng) (c : Coord) (hc : InGrid c) :
    Reach (generateConnections r).1 entrance c := by
  obtain ⟨hI, -⟩ := primResult_inv r
  exact reach_mono (edgeLE_generate r) (hI.reach_vis c (primResult_all_visited r c hc))

/-- C1: for every random stream (hence every seed), every grid cell is
reachable from the entrance `(0,0)` through the connection graph emitted by
`GenerateDungeon`'s `generateConnections`. -/
theorem generateDungeon_fully_connected (r : Rng) (c : Coord) (hc : InGrid c) :
    Reach (generateConnections r).1 entrance c :=
  reach_generate r c hc

theorem generateDungeon_fully_connected_witness :
    InGrid ((4 : Int), (4 : Int)) ∧
      Reach (generateConnections zeroRng).1 entrance ((4 : Int), (4 : Int)) :=
  ⟨by decide, generateDungeon_fully_connected zeroRng ((4 : Int), (4 : Int)) (by decide)⟩

/-! ## Door counts and reciprocity -/

theorem inGrid_iff (c : Coord) : InGrid c ↔ 0 ≤ c.1 ∧ c.1 < 5 ∧ 0 ≤ c.2 ∧ c.2 < 5 := by
  unfold InGrid gridSize
  norm_num

theorem mem_gridCells {c : Coord} : c ∈ gridCells ↔ InGrid c := by
  constructor
  · intro hc
    unfold gridCells at hc
    obtain ⟨l, hl, hcl⟩ := List.mem_flatten.mp hc
    obtain ⟨y, hy, rfl⟩ := List.mem_map.mp hl
    obtain ⟨x, hx, rfl⟩ := List.mem_map.mp hcl
    rw [List.mem_range] at hy hx
    simp only [gridSize] at hy hx
    rw [inGrid_iff]
    refine ⟨?_, ?_, ?_, ?_⟩ <;> omega
  · intro hg
    rw [inGrid_iff] at hg
    obtain ⟨h1, h2, h3, h4⟩ := hg
    unfold gridCells
    refine List.mem_flatten.mpr
      ⟨_, List.mem_map.mpr ⟨c.2.toNat, List.mem_range.mpr ?_, rfl⟩, ?_⟩
    · simp only [gridSize]; omega
    · refine List.mem_map.mpr ⟨c.1.toNat, List.mem_range.mpr ?_, ?_⟩
      · simp only [gridSize]; omega
      · rw [Int.toNat_of_nonneg h1, Int.toNat_of_nonneg h3]

/-- Every recorded edge is mirrored in the opposite direction. -/
def EdgeSymm (es : EdgeSet) : Prop :=
  ∀ c d, es c d = true → es (getNeighbor c d) d.opposite = true

/-- Every recorded edge stays inside the grid. -/
def EdgeInGrid (es : EdgeSet) : Prop :=
  ∀ c d, es c d = true → InGrid c ∧ InGrid (getNeighbor c d)

theorem setPair_lookup (es : EdgeSet) (a b : Coord) (d0 : Dir) (c : Coord) (d : Dir) :
    setEdge (setEdge es a d0) b d0.opposite c d = true ↔
      (c = b ∧ d = d0.opposite) ∨ (c = a ∧ d = d0) ∨ es c d = true := by
  rw [setEdge_lookup, setEdge_lookup]

theorem edgeSymm_setPair {es : EdgeSet} (hs : EdgeSymm es) {a b : Coord} {d0 : Dir}
    (hnb : b = getNeighbor a d0) :
    EdgeSymm (setEdge (setEdge es a d0) b d0.opposite) := by
  intro c d hcd
  rcases (setPair_lookup es a b d0 c d).mp hcd with ⟨rfl, rfl⟩ | ⟨rfl, rfl⟩ | hold
  · rw [setPair_lookup]
    refine Or.inr (Or.inl ⟨?_, opposite_opposite d0⟩)
    rw [hnb]; exact neighbor_opposite a d0
  · rw [setPair_lookup]
    exact Or.inl ⟨hnb.symm, rfl⟩
  · rw [setPair_lookup]
    exact Or.inr (Or.inr (hs c d hold))

theorem edgeInGrid_setPair {es : EdgeSet} (hg : EdgeInGrid es) {a b : Coord} {d0 : Dir}
    (hnb : b = getNeighbor a d0) (ha : InGrid a) (hb : InGrid b) :
    EdgeInGrid (setEdge (setEdge es a d0) b d0.opposite) := by
  intro c d hcd
  rcases (setPair_lookup es a b d0 c d).mp hcd with ⟨rfl, rfl⟩ | ⟨rfl, rfl⟩ | hold
  · refine ⟨hb, ?_⟩
    rw [hnb, neighbor_opposite]
    exact ha
  · refine ⟨ha, ?_⟩
    rw [← hnb]
    exact hb
  · exact hg c d hold

theorem addExtraEdges_props :
    ∀ (l : List Edge) (es : EdgeSet) (dc : Coord → Nat) (r : Rng),
      (∀ e ∈ l, e.dst = getNeighbor e.src e.dir ∧ InGrid e.src ∧ InGrid e.dst) →
      EdgeSymm es → EdgeInGrid es →
      EdgeSymm (addExtraEdges l es dc r).1 ∧ EdgeInGrid (addExtraEdges l es dc r).1
  | [], es, _, _, _, hs, hg => ⟨hs, hg⟩
  | e :: rest, es, dc, r, hl, hs, hg => by
    have hrest : ∀ x ∈ rest, x.dst = getNeighbor x.src x.dir ∧ InGrid x.src ∧ InGrid x.dst :=
      fun x hx => hl x (List.mem_cons_of_mem e hx)
    obtain ⟨hnb, hsrcg, hdstg⟩ := hl e (List.mem_cons_self e rest)
    have haccept : ∀ (dc' : Coord → Nat) (r' : Rng),
        EdgeSymm (addExtraEdges rest (setEdge (setEdge es e.src e.dir) e.dst e.dir.opposite)
            dc' r').1 ∧
          EdgeInGrid (addExtraEdges rest (setEdge (setEdge es e.src e.dir) e.dst e.dir.opposite)
            dc' r').1 :=
      fun dc' r' => addExtraEdges_props rest _ dc' r' hrest
        (edgeSymm_setPair hs hnb) (edgeInGrid_setPair hg hnb hsrcg hdstg)
    unfold addExtraEdges
    dsimp only
    split
    · exact addExtraEdges_props rest es dc r hrest hs hg
    · by_cases h1 : dc e.src = 1
      · rw [if_pos h1]
        split
        · exact haccept _ _
        · exact addExtraEdges_props rest es dc _ hrest hs hg
      · by_cases h2 : dc e.src = 2
        · rw [if_neg h1, if_pos h2]
          split
          · exact haccept _ _
          · exact addExtraEdges_props rest es dc _ hrest hs hg
        · rw [if_neg h1, if_neg h2]
          exact addExtraEdges_props rest es dc _ hrest hs hg

theorem mem_swapIdx {l : List Edge} {i j : Nat} {x : Edge}
    (hi : i < l.length) (hj : j < l.length) (hx : x ∈ swapIdx l i j) : x ∈ l := by
  unfold swapIdx at hx
  rcases List.mem_or_eq_of_mem_set hx with hx' | rfl
  · rcases List.mem_or_eq_of_mem_set hx' with hx'' | rfl
    · exact hx''
    · exact getD_mem_of_lt l dummyEdge j hj
  · exact getD_mem_of_lt l dummyEdge i hi

theorem mem_shuffleAux :
    ∀ (i : Nat) (l : List Edge) (r : Rng) (x : Edge),
      i < l.length → x ∈ (shuffleAux i l r).1 → x ∈ l
  | 0, _, _, _, _, hx => hx
  | im1 + 1, l, r, x, hi, hx => by
    have hj : r.nats r.idx % (im1 + 2) < l.length :=
      lt_of_le_of_lt (Nat.le_of_lt_succ (Nat.mod_lt _ (Nat.succ_pos _))) hi
    have hlen : (swapIdx l (im1 + 1) (r.nats r.idx % (im1 + 2))).length = l.length := by
      simp [swapIdx]
    refine mem_swapIdx hi hj (mem_shuffleAux im1 _ _ x ?_ hx)
    rw [hlen]
    omega

theorem mem_shuffleEdges {l : List Edge} {r : Rng} {x : Edge}
    (hx : x ∈ (shuffleEdges l r).1) : x ∈ l := by
  match l with
  | [] => exact hx
  | a :: t =>
    refine mem_shuffleAux _ _ r x ?_ hx
    simp only [List.length_cons]
    omega

theorem mem_possibleEdges {es : EdgeSet} {e : Edge} (he : e ∈ possibleEdges es) :
    e.dst = getNeighbor e.src e.dir ∧ InGrid e.src ∧ InGrid e.dst := by
  simp only [possibleEdges, List.mem_flatMap] at he
  obtain ⟨c, hc, he'⟩ := he
  obtain ⟨d, -, hd⟩ := List.mem_filterMap.mp he'
  split at hd
  · rename_i hcond
    injection hd with hd
    subst hd
    exact ⟨rfl, mem_gridCells.mp hc, (inGridB_iff _).mp hcond.1⟩
  · cases hd

theorem generate_symm_inGrid (r : Rng) :
    EdgeSymm (generateConnections r).1 ∧ EdgeInGrid (generateConnections r).1 := by
  obtain ⟨hI, -⟩ := primResult_inv r
  have hs : EdgeSymm (primResult r).1.edges := hI.edges_symm
  have hg : EdgeInGrid (primResult r).1.edges := by
    intro c d h
    obtain ⟨h1, h2⟩ := hI.edges_vis c d h
    exact ⟨hI.vis_grid c h1, hI.vis_grid _ h2⟩
  have hcand : ∀ e ∈ (shuffleEdges (possibleEdges (primResult r).1.edges) (primResult r).2).1,
      e.dst = getNeighbor e.src e.dir ∧ InGrid e.src ∧ InGrid e.dst :=
    fun e he => mem_possibleEdges (mem_shuffleEdges he)
  exact addExtraEdges_props _ _ _ _ hcand hs hg

theorem mem_connectionsOf {es : EdgeSet} {cn : ConnRec} :
    cn ∈ connectionsOf es ↔
      InGrid cn.src ∧ es cn.src cn.dir = true ∧
        inGridB (getNeighbor cn.src cn.dir) = true ∧ cn.dst = getNeighbor cn.src cn.dir := by
  simp only [connectionsOf, List.mem_flatMap]
  constructor
  · rintro ⟨c, hc, he⟩
    obtain ⟨d, -, hd⟩ := List.mem_filterMap.mp he
    split at hd
    · rename_i hcond
      injection hd with hd
      subst hd
      exact ⟨mem_gridCells.mp hc, hcond.1, hcond.2, rfl⟩
    · cases hd
  · rintro ⟨h1, h2, h3, h4⟩
    refine ⟨cn.src, mem_gridCells.mpr h1, List.mem_filterMap.mpr ⟨cn.dir, mem_dirList _, ?_⟩⟩
    rw [if_pos ⟨h2, h3⟩]
    obtain ⟨s, d, t⟩ := cn
    simp only at h4
    rw [h4]

/-- C3: for every random stream (hence every seed), the generated connection
list is reciprocal: each connection from room `A` to room `B` in direction `D`
is matched by a connection from `B` to `A` in `opposite(D)`. -/
theorem generateDungeon_connections_reciprocal (r : Rng) (cn : ConnRec)
    (h : cn ∈ connectionsOf (generateConnections r).1) :
    (⟨cn.dst, cn.dir.opposite, cn.src⟩ : ConnRec) ∈ connectionsOf (generateConnections r).1 := by
  obtain ⟨hsymm, hgrid⟩ := generate_symm_inGrid r
  obtain ⟨h1, h2, h3, h4⟩ := mem_connectionsOf.mp h
  refine mem_connectionsOf.mpr ⟨?_, ?_, ?_, ?_⟩
  · rw [h4]
    exact (hgrid _ _ h2).2
  · rw [h4]
    exact hsymm _ _ h2
  · rw [h4, neighbor_opposite]
    exact (inGridB_iff _).mpr h1
  · rw [h4, neighbor_opposite]

theorem generateDungeon_connections_reciprocal_witness :
    (⟨(0, 0), Dir.north, (0, 1)⟩ : ConnRec) ∈ connectionsOf (generateConnections zeroRng).1 ∧
      (⟨(0, 1), Dir.south, (0, 0)⟩ : ConnRec) ∈ connectionsOf (generateConnections zeroRng).1 :=
  ⟨by decide,
    generateDungeon_connections_reciprocal zeroRng ⟨(0, 0), Dir.north, (0, 1)⟩ (by decide)⟩

/-- The random stream that steers the spanning tree so that cell `(2,2)` is
committed with tree degree 4 (a path from the entrance enters it, then the
three remaining neighbors are all expanded from it). -/
def fourDoorTape : List Nat := [1, 2, 2, 3, 7, 6, 5]

/-- A random stream on which the generator gives room `(2,2)` four doors. -/
def fourDoorRng : Rng := ⟨fun i => fourDoorTape.getD i 0, fun _ => false, 0⟩

/-- C2, counterexample: the per-room door cap of 3 only constrains the
extra-edge phase; the spanning-tree phase itself can give a room 4 doors, so
"every room has between 1 and 3 doors" fails on some random streams. -/
theorem generateDungeon_door_cap_fails :
    ¬ ∀ (r : Rng) (c : Coord), InGrid c → doorCount (generateConnections r).1 c ≤ 3 := by
  intro h
  have h3 := h fourDoorRng ((2 : Int), (2 : Int)) (by decide)
  have h4 : doorCount (generateConnections fourDoorRng).1 ((2 : Int), (2 : Int)) = 4 := by
    decide
  omega

/-- C2, amended: for every random stream (hence every seed), every room of the
generated dungeon has at least 1 and at most 4 doors (the cap of 3 holds for
the extra-edge phase, but a room can already have 4 doors from the spanning
tree). -/
theorem generateDungeon_door_bounds (r : Rng) (c : Coord) (hc : InGrid c) :
    1 ≤ doorCount (generateConnections r).1 c ∧ doorCount (generateConnections r).1 c ≤ 4 := by
  constructor
  · have hex : ∃ d : Dir, (generateConnections r).1 c d = true := by
      by_cases hce : c = entrance
      · subst hce
        have hr := reach_generate r ((1 : Int), (0 : Int)) (by decide)
        rcases hr.cases_head with heq | ⟨m, hstep, -⟩
        · exact absurd heq (by decide)
        · obtain ⟨d, hd, -⟩ := hstep
          exact ⟨d, hd⟩
      · have hr := reach_generate r c hc
        rcases hr.cases_tail with heq | ⟨b, -, hstep⟩
        · exact absurd heq hce
        · obtain ⟨d, hd, hceq⟩ := hstep
          obtain ⟨hsymm, -⟩ := generate_symm_inGrid r
          exact ⟨d.opposite, hceq ▸ hsymm b d hd⟩
    obtain ⟨d, hd⟩ := hex
    have : 0 < dirList.countP fun d' => (generateConnections r).1 c d' :=
      List.countP_pos_iff.mpr ⟨d, mem_dirList d, hd⟩
    unfold doorCount
    omega
  · exact List.countP_le_length _

theorem generateDungeon_door_bounds_witness :
    InGrid ((0 : Int), (0 : Int)) ∧
      (1 ≤ doorCount (generateConnections zeroRng).1 ((0 : Int), (0 : Int)) ∧
        doorCount (generateConnections zeroRng).1 ((0 : Int), (0 : Int)) ≤ 4) :=
  ⟨by decide, generateDungeon_door_bounds zeroRng ((0 : Int), (0 : Int)) (by decide)⟩

/-! ## Game entities (`internal/game/types.go`)

Entity IDs (crypto-random hex strings in Go) are modelled as `Nat` tokens
drawn from deterministic counters; `0` plays the role of Go's zero-value
`""` (rooms are given the ids `1..25`, so no entity ever has id `0`).
`time.Time` fields are modelled only by whether they are set
(`diedAtSet`); `CreatedAt` carries no game-relevant information and is
omitted. -/

/-- `Character` from `types.go`. -/
structure Character where
  id : Nat
  name : String
  hp : Int
  maxHp : Int
  strength : Nat
  dexterity : Nat
  currentRoomId : Nat
  isAlive : Bool
  diedAtSet : Bool
  equippedWeaponId : Option Nat
  equippedArmorId : Option Nat
deriving DecidableEq, Repr

/-- `Monster` from `types.go` (the never-populated `LootTable` is omitted). -/
structure Monster where
  id : Nat
  name : String
  description : String
  hp : Int
  maxHp : Int
  damage : Nat
  roomId : Nat
  isAlive : Bool
deriving DecidableEq, Repr

/-- `Item` from `types.go`; `type` is kept as a string, as the Go code
compares it against string literals. -/
structure Item where
  id : Nat
  name : String
  description : String
  type : String
  damage : Nat
  armor : Nat
  healing : Nat
  rarity : String
  roomId : Option Nat
  characterId : Option Nat
  isEquipped : Bool
deriving DecidableEq, Repr

/-- `Room` from `types.go` (the derived `Exits` slice is computed from
connections, never stored). -/
structure Room where
  id : Nat
  dungeonId : Nat
  name : String
  description : String
  isEntrance : Bool
  isExit : Bool
  x : Int
  y : Int
deriving DecidableEq, Repr

/-- `RoomConnection` from `types.go`. -/
structure RoomConnection where
  id : Nat
  roomId : Nat
  direction : String
  connectedRoomId : Nat
deriving DecidableEq, Repr

/-- `Trap` from `types.go` (declared but never populated by the generator). -/
structure Trap where
  id : Nat
  roomId : Nat
  description : String
  damage : Nat
  isTriggered : Bool
  isDiscovered : Bool
  difficulty : Nat
deriving DecidableEq, Repr

/-- `Dungeon` from `types.go` (seed kept abstract, creation time omitted). -/
structure Dungeon where
  id : Nat
  depth : Nat
deriving DecidableEq, Repr

/-- `NewCharacter` from `state.go`: hp 20/20, strength 10, dexterity 10,
alive; the id comes from the caller's fresh-id supply and the room is unset. -/
def newCharacter (id : Nat) (name : String) : Character :=
  { id := id, name := name, hp := 20, maxHp := 20, strength := 10, dexterity := 10
    currentRoomId := 0, isAlive := true, diedAtSet := false
    equippedWeaponId := none, equippedArmorId := none }

/-- `Character.TakeDamage` from `state.go`: subtract, then clamp at 0 and
kill.  (Every call site passes a damage value ≥ 1.) -/
def Character.takeDamage (c : Character) (damage : Int) : Character :=
  let hp' := c.hp - damage
  if hp' ≤ 0 then
    { c with hp := 0, isAlive := false, diedAtSet := true }
  else
    { c with hp := hp' }

/-- `Character.Heal` from `state.go`: add, then clamp at `maxHp`.
(Every call site passes a healing value ≥ 0.) -/
def Character.heal (c : Character) (amount : Nat) : Character :=
  let hp' := c.hp + amount
  { c with hp := if c.maxHp < hp' then c.maxHp else hp' }

/-! ## Combat (`internal/game/combat.go`) -/

/-- `CombatResult` from `types.go`. -/
structure CombatResult where
  attackerDamage : Int
  defenderDamage : Int
  attackerHP : Int
  defenderHP : Int
  attackerDied : Bool
  defenderDied : Bool
  message : String
deriving DecidableEq, Repr

/-- `AttackResult` from `types.go`. -/
structure AttackResult where
  attackerName : String
  targetName : String
  damage : Int
  wasHit : Bool
  wasCritical : Bool
  remainingHP : Int
deriving DecidableEq, Repr

/-- `EnhancedCombatResult` from `types.go`. -/
structure EnhancedCombatResult where
  playerAttack : Option AttackResult
  enemyAttack : Option AttackResult
  enemyDefeated : Bool
  playerDied : Bool
deriving DecidableEq, Repr

/-- `SetCombatSeed`: installing a seed replaces the combat stream with the
stream that seed determines and resets its cursor.  Seeds are represented by
the streams they determine (see the module docstring). -/
def setCombatSeed (nats : Nat → Nat) (bools : Nat → Bool) : Rng :=
  ⟨nats, bools, 0⟩

/-- `RollDice` from `combat.go`: `Intn(sides) + 1`. -/
def rollDice (sides : Nat) (r : Rng) : Nat × Rng :=
  let p := r.intn sides
  (p.1 + 1, p.2)

/-- The full effect of one `ExecuteCombatTurn` call: the two returned result
records, the combat-continues flag, the mutated player and monster, and the
advanced random source. -/
structure CombatOutcome where
  result : CombatResult
  enhanced : EnhancedCombatResult
  continues : Bool
  player : Character
  monster : Monster
  rng : Rng

/-- The monster counter-attack phase of `ExecuteCombatTurn` (the code after
the player's non-fatal attack): monster rolls a bare d20 against
`10 + dex/2 + armorBonus`, deals `damage + (d6 - 3)` floored at 1, and the
player may die. -/
def monsterPhase (player : Character) (monster' : Monster) (armorBonus : Nat)
    (result : CombatResult) (pa : AttackResult) (r : Rng) : CombatOutcome :=
  let p3 := rollDice 20 r
  let monsterAttackRoll := p3.1
  let playerDefense : Nat := 10 + player.dexterity / 2 + armorBonus
  let mname := monster'.name
  let ea0 : AttackResult :=
    { attackerName := monster'.name, targetName := player.name
      damage := 0, wasHit := false, wasCritical := false, remainingHP := 0 }
  if monsterAttackRoll ≥ playerDefense then
    let p4 := rollDice 6 p3.2
    let damageRoll := p4.1
    let monsterDamage0 : Int := (monster'.damage : Int) + ((damageRoll : Int) - 3)
    let monsterDamage : Int := if monsterDamage0 < 1 then 1 else monsterDamage0
    let ea1 :=
      { ea0 with wasHit := true, damage := monsterDamage, wasCritical := damageRoll ≥ 5 }
    let player' := player.takeDamage monsterDamage
    let phpv := player'.hp
    let pmaxv := player.maxHp
    let dmgv := monsterDamage
    let result1 :=
      { result with attackerDamage := monsterDamage, attackerHP := player'.hp }
    let ea2 := { ea1 with remainingHP := player'.hp }
    if player'.isAlive = false then
      let msg := result.message ++
        (if ea2.wasCritical then
          s!" CRITICAL HIT! The {mname} strikes back for {dmgv} damage! You have fallen..."
        else s!" The {mname} strikes back for {dmgv} damage! You have fallen...")
      { result := { result1 with attackerDied := true, message := msg }
        enhanced := { playerAttack := some pa, enemyAttack := some ea2
                      enemyDefeated := false, playerDied := true }
        continues := false, player := player', monster := monster', rng := p4.2 }
    else
      let msg := result.message ++
        (if ea2.wasCritical then
          s!" CRITICAL HIT! The {mname} strikes back for {dmgv} damage! (HP: {phpv}/{pmaxv})"
        else s!" The {mname} strikes back for {dmgv} damage! (HP: {phpv}/{pmaxv})")
      { result := { result1 with message := msg }
        enhanced := { playerAttack := some pa, enemyAttack := some ea2
                      enemyDefeated := false, playerDied := false }
        continues := true, player := player', monster := monster', rng := p4.2 }
  else
    let ea1 := { ea0 with remainingHP := player.hp }
    let msg := result.message ++ s!" The {mname} tries to attack but misses!"
    { result := { result with message := msg }
      enhanced := { playerAttack := some pa, enemyAttack := some ea1
                    enemyDefeated := false, playerDied := false }
      continues := true, player := player, monster := monster', rng := p3.2 }

/-- `ExecuteCombatTurn` from `combat.go`; `playerAction` is accepted and
ignored, as in the source. -/
def executeCombatTurn (player : Character) (monster : Monster) (_playerAction : String)
    (weaponBonus armorBonus : Nat) (r : Rng) : CombatOutcome :=
  let result0 : CombatResult :=
    { attackerDamage := 0, defenderDamage := 0, attackerHP := player.hp
      defenderHP := monster.hp, attackerDied := false, defenderDied := false, message := "" }
  let playerDamageBonus : Nat := player.strength / 2 + weaponBonus
  let p1 := rollDice 20 r
  let attackRoll := p1.1 + player.dexterity / 2
  let monsterDefense : Nat := 10
  let mname := monster.name
  let pa0 : AttackResult :=
    { attackerName := player.name, targetName := monster.name
      damage := 0, wasHit := false, wasCritical := false, remainingHP := 0 }
  if attackRoll ≥ monsterDefense then
    let p2 := rollDice 6 p1.2
    let damageRoll := p2.1
    let damage0 : Int := (damageRoll : Int) + (playerDamageBonus : Int)
    let damage : Int := if damage0 < 1 then 1 else damage0
    let dmgv := damage
    let pa1 :=
      { pa0 with wasHit := true, damage := damage, wasCritical := damageRoll ≥ 5 }
    let mhp := monster.hp - damage
    let result1 := { result0 with defenderDamage := damage }
    if mhp ≤ 0 then
      let monster' := { monster with hp := 0, isAlive := false }
      let pa2 := { pa1 with remainingHP := 0 }
      let msg :=
        if pa2.wasCritical then
          s!"CRITICAL HIT! You strike the {mname} for {dmgv} damage! The {mname} collapses!"
        else s!"You strike the {mname} for {dmgv} damage! The {mname} collapses!"
      { result := { result1 with defenderHP := 0, defenderDied := true, message := msg }
        enhanced := { playerAttack := some pa2, enemyAttack := none
                      enemyDefeated := true, playerDied := false }
        continues := false, player := player, monster := monster', rng := p2.2 }
    else
      let monster' := { monster with hp := mhp }
      let pa2 := { pa1 with remainingHP := mhp }
      let mhpv := mhp
      let mmaxv := monster.maxHp
      let msg :=
        if pa2.wasCritical then
          s!"CRITICAL HIT! You strike the {mname} for {dmgv} damage! ({mhpv}/{mmaxv} HP)"
        else s!"You strike the {mname} for {dmgv} damage! ({mhpv}/{mmaxv} HP)"
      monsterPhase player monster' armorBonus
        { result1 with defenderHP := mhp, message := msg } pa2 p2.2
  else
    let pa1 := { pa0 with remainingHP := monster.hp }
    let msg := s!"You swing at the {mname} but miss!"
    monsterPhase player monster armorBonus
      { result0 with message := msg } pa1 p1.2

/-! ## The combat claim: observable view vs. the specified rules -/

/-- The observable content of one combat turn, as described by the spec:
whether each side hit, the damage dealt, criticals, deaths, resulting hit
points, and whether combat continues. -/
structure CombatTurnView where
  playerHit : Bool
  playerDamage : Int
  playerCrit : Bool
  monsterDied : Bool
  monsterHpAfter : Int
  counterOccurred : Bool
  monsterHit : Bool
  monsterDamage : Int
  monsterCrit : Bool
  playerHpAfter : Int
  playerDied : Bool
  continues : Bool
deriving DecidableEq, Repr

/-- Project a `CombatOutcome` onto its observable view. -/
def combatView (o : CombatOutcome) : CombatTurnView :=
  { playerHit := (o.enhanced.playerAttack.map AttackResult.wasHit).getD false
    playerDamage := (o.enhanced.playerAttack.map AttackResult.damage).getD 0
    playerCrit := (o.enhanced.playerAttack.map AttackResult.wasCritical).getD false
    monsterDied := o.result.defenderDied
    monsterHpAfter := o.monster.hp
    counterOccurred := o.enhanced.enemyAttack.isSome
    monsterHit := (o.enhanced.enemyAttack.map AttackResult.wasHit).getD false
    monsterDamage := (o.enhanced.enemyAttack.map AttackResult.damage).getD 0
    monsterCrit := (o.enhanced.enemyAttack.map AttackResult.wasCritical).getD false
    playerHpAfter := o.player.hp
    playerDied := o.result.attackerDied
    continues := o.continues }

/-- The counter-attack half of the specified combat rules: the monster rolls
a bare d20 and hits iff it is at least `10 + floor(dex/2) + armorBonus`;
damage is `monster.damage + (d6 - 3)` floored at 1, a d6 of 5 or 6 is a
critical; if the player's hp drops to 0 the player dies and combat ends,
otherwise both survive and combat continues. -/
def combatCounterSpec (player : Character) (monster : Monster) (armorBonus : Nat)
    (playerHit : Bool) (playerDamage : Int) (playerCrit : Bool) (monsterHpAfter : Int)
    (r : Rng) : CombatTurnView :=
  let a2 := rollDice 20 r
  if a2.1 ≥ 10 + player.dexterity / 2 + armorBonus then
    let d2 := rollDice 6 a2.2
    let mdmg : Int := max 1 ((monster.damage : Int) + ((d2.1 : Int) - 3))
    let newHp := player.hp - mdmg
    { playerHit := playerHit, playerDamage := playerDamage, playerCrit := playerCrit
      monsterDied := false, monsterHpAfter := monsterHpAfter
      counterOccurred := true, monsterHit := true, monsterDamage := mdmg
      monsterCrit := d2.1 ≥ 5
      playerHpAfter := if newHp ≤ 0 then 0 else newHp
      playerDied := newHp ≤ 0
      continues := !decide (newHp ≤ 0) }
  else
    { playerHit := playerHit, playerDamage := playerDamage, playerCrit := playerCrit
      monsterDied := false, monsterHpAfter := monsterHpAfter
      counterOccurred := true, monsterHit := false, monsterDamage := 0
      monsterCrit := false
      playerHpAfter := player.hp, playerDied := false, continues := true }

/-- The combat rules exactly as the claim states them: player attack roll is
`d20 + floor(dex/2)`, hitting iff at least the fixed defense 10; on a hit
damage is `d6 + floor(str/2) + weaponBonus` floored at 1, critical iff the d6
is 5 or 6; a monster whose hp drops to 0 or below is clamped to 0, dies, and
combat ends with no counter-attack; otherwise the counter-attack of
`combatCounterSpec` runs. -/
def combatTurnSpec (player : Character) (monster : Monster)
    (weaponBonus armorBonus : Nat) (r : Rng) : CombatTurnView :=
  let a1 := rollDice 20 r
  if a1.1 + player.dexterity / 2 ≥ 10 then
    let d1 := rollDice 6 a1.2
    let dmg : Int := max 1 ((d1.1 : Int) + ((player.strength / 2 + weaponBonus : Nat) : Int))
    let crit : Bool := d1.1 ≥ 5
    let mhp := monster.hp - dmg
    if mhp ≤ 0 then
      { playerHit := true, playerDamage := dmg, playerCrit := crit
        monsterDied := true, monsterHpAfter := 0
        counterOccurred := false, monsterHit := false, monsterDamage := 0
        monsterCrit := false
        playerHpAfter := player.hp, playerDied := false, continues := false }
    else
      combatCounterSpec player monster armorBonus true dmg crit mhp d1.2
  else
    combatCounterSpec player monster armorBonus false 0 false monster.hp a1.2

theorem if_lt_one_eq_max (x : Int) : (if x < 1 then (1 : Int) else x) = max 1 x := by
  split <;> omega

theorem monsterPhase_view (player : Character) (monster' : Monster) (armorBonus : Nat)
    (result : CombatResult) (pa : AttackResult) (r : Rng)
    (halive : player.isAlive = true)
    (hadied : result.attackerDied = false) (hddied : result.defenderDied = false) :
    combatView (monsterPhase player monster' armorBonus result pa r) =
      combatCounterSpec player monster' armorBonus pa.wasHit pa.damage pa.wasCritical
        monster'.hp r := by
  simp only [monsterPhase, combatCounterSpec, combatView, Character.takeDamage,
    rollDice, Rng.intn, if_lt_one_eq_max]
  split_ifs <;> simp_all [Option.map, Option.getD]

/-- C4: the observable behavior of `ExecuteCombatTurn` (hit conditions,
damage formulas, criticals, death handling, early return without a
counter-attack, and the combat-continues flag) is exactly the combat rules
stated by the spec, for every living player, monster, bonus pair and random
stream. -/
theorem executeCombatTurn_spec (player : Character) (monster : Monster)
    (act : String) (weaponBonus armorBonus : Nat) (r : Rng)
    (halive : player.isAlive = true) :
    combatView (executeCombatTurn player monster act weaponBonus armorBonus r) =
      combatTurnSpec player monster weaponBonus armorBonus r := by
  simp only [executeCombatTurn, combatTurnSpec, rollDice, Rng.intn, if_lt_one_eq_max]
  split_ifs <;>
    first
      | exact monsterPhase_view _ _ _ _ _ _ halive rfl rfl
      | rfl

/-- A concrete living character for witnesses. -/
def heroSample : Character := newCharacter 50 "Hero"

/-- A concrete monster for witnesses. -/
def ratSample : Monster :=
  { id := 60, name := "Rat", description := "A large, mangy rat with beady red eyes."
    hp := 5, maxHp := 5, damage := 2, roomId := 1, isAlive := true }

theorem executeCombatTurn_spec_witness :
    heroSample.isAlive = true ∧
      combatView (executeCombatTurn heroSample ratSample "attack" 0 0 zeroRng) =
        combatTurnSpec heroSample ratSample 0 0 zeroRng :=
  ⟨by decide, executeCombatTurn_spec heroSample ratSample "attack" 0 0 zeroRng (by decide)⟩

/-- C9: combat is deterministic in the seed.  Two runs of
`ExecuteCombatTurn`, each immediately after `SetCombatSeed` with equal seeds
(equal seeds determine equal streams) and with identical initial
player/monster stats, action and equipment bonuses, produce identical
outcomes: the same `CombatResult`, the same `EnhancedCombatResult`, the same
combat-continues flag, and the same mutated entities. -/
theorem executeCombatTurn_deterministic
    (n1 n2 : Nat → Nat) (b1 b2 : Nat → Bool)
    (p1 p2 : Character) (m1 m2 : Monster) (act1 act2 : String)
    (wb1 wb2 ab1 ab2 : Nat)
    (hn : n1 = n2) (hb : b1 = b2) (hp : p1 = p2) (hm : m1 = m2) (ha : act1 = act2)
    (hw : wb1 = wb2) (hab : ab1 = ab2) :
    executeCombatTurn p1 m1 act1 wb1 ab1 (setCombatSeed n1 b1) =
      executeCombatTurn p2 m2 act2 wb2 ab2 (setCombatSeed n2 b2) := by
  subst hn hb hp hm ha hw hab
  rfl

theorem executeCombatTurn_deterministic_witness :
    executeCombatTurn heroSample ratSample "attack" 0 0
        (setCombatSeed (fun _ => 0) (fun _ => false)) =
      executeCombatTurn heroSample ratSample "attack" 0 0
        (setCombatSeed (fun _ => 0) (fun _ => false)) :=
  executeCombatTurn_deterministic _ _ _ _ heroSample heroSample ratSample ratSample
    "attack" "attack" 0 0 0 0 rfl rfl rfl rfl rfl rfl rfl

/-! ## Game state (`internal/game/state.go`)

The Go `GameState` keys its entity maps by crypto-random string ids.  Rooms
and items are modelled as partial functions `Nat → Option _` (every embedded
operation accesses them by key); monsters are kept as a list because
`GetRoomMonsters` scans the whole monster map.  `RoomsByCoord` is consulted
only by map rendering and is not embedded. -/

/-- `EventInfo` from `types.go`. -/
structure EventInfo where
  type : String
  subtype : String
  entities : List String
deriving DecidableEq, Repr

/-- Modelled from the spec: the `TurnContext` record and its helpers are
called by the orchestrator (`server.go`) but defined in a source file not
among the examined ones.  Per §4.5 it carries the last event classification,
the last combat result, the inventory delta and the per-room/combat
counters, and exists only to drive derived UI fields. -/
structure TurnContext where
  lastEvent : Option EventInfo
  lastCombatResult : Option EnhancedCombatResult
  newItems : List String
  usedItems : List String
  defeatedMonsters : List String
  turnsInRoom : Nat
  consecutiveCombat : Nat
deriving DecidableEq, Repr

/-- A fresh, empty turn context. -/
def TurnContext.empty : TurnContext :=
  { lastEvent := none, lastCombatResult := none, newItems := [], usedItems := []
    defeatedMonsters := [], turnsInRoom := 0, consecutiveCombat := 0 }

/-- `GameState` from `state.go`. -/
structure GameState where
  character : Option Character
  dungeon : Option Dungeon
  rooms : Nat → Option Room
  connections : List RoomConnection
  monsters : List Monster
  items : Nat → Option Item
  traps : List Trap
  visitedRooms : Nat → Bool
  turnContext : Option TurnContext
  gameOver : Bool
  victory : Bool

/-- `NewGameState`. -/
def newGameState : GameState :=
  { character := none, dungeon := none, rooms := fun _ => none, connections := []
    monsters := [], items := fun _ => none, traps := [], visitedRooms := fun _ => false
    turnContext := none, gameOver := false, victory := false }

/-- `IsInitialized`. -/
def GameState.isInitialized (gs : GameState) : Bool :=
  gs.character.isSome && gs.dungeon.isSome

/-- `GetRoomMonsters`: all alive monsters in a room. -/
def GameState.getRoomMonsters (gs : GameState) (roomId : Nat) : List Monster :=
  gs.monsters.filter fun m => m.roomId == roomId && m.isAlive

/-- `HasMonstersInRoom`. -/
def GameState.hasMonstersInRoom (gs : GameState) (roomId : Nat) : Bool :=
  0 < (gs.getRoomMonsters roomId).length

/-- The exit of a room in one direction.  `GetRoomExits` builds a
direction-to-room map by iterating the room's connection slice, a later
connection overwriting an earlier one, so the exit in a direction is the
last matching connection. -/
def GameState.roomExit (gs : GameState) (roomId : Nat) (dir : String) : Option Nat :=
  ((gs.connections.filter fun cn => cn.roomId == roomId && cn.direction == dir).getLast?).map
    fun cn => cn.connectedRoomId

/-- `GetCurrentRoom`. -/
def GameState.getCurrentRoom (gs : GameState) : Option Room :=
  match gs.character with
  | none => none
  | some ch => gs.rooms ch.currentRoomId

/-- `MarkRoomVisited`. -/
def GameState.markRoomVisited (gs : GameState) (roomId : Nat) : GameState :=
  { gs with visitedRooms := fun rid => if rid = roomId then true else gs.visitedRooms rid }

/-- `MoveCharacter` from `state.go`: fails without a character, on a dead
character, when alive monsters block egress, or without an exit in the given
direction; on success relocates the character, marks the destination visited
and sets the Victory/GameOver flags when the destination is the exit room.
Returns the error (Go's `error` value) together with the resulting state. -/
def GameState.moveCharacter (gs : GameState) (direction : String) :
    Option String × GameState :=
  match gs.character with
  | none => (some "no character", gs)
  | some ch =>
    if ch.isAlive = false then (some "character is dead", gs)
    else
      let currentRoomID := ch.currentRoomId
      if gs.hasMonstersInRoom currentRoomID then
        (some "cannot leave while monsters are present - defeat them first", gs)
      else
        match gs.roomExit currentRoomID direction with
        | none => (some s!"cannot move {direction} - no exit in that direction", gs)
        | some newRoomID =>
          let gs1 := { gs with
            character := some { ch with currentRoomId := newRoomID }
            visitedRooms := fun rid => if rid = newRoomID then true else gs.visitedRooms rid }
          match gs1.rooms newRoomID with
          | some newRoom =>
            if newRoom.isExit then (none, { gs1 with victory := true, gameOver := true })
            else (none, gs1)
          | none => (none, gs1)

/-- `TakeItem` from `state.go`. -/
def GameState.takeItem (gs : GameState) (itemID : Nat) : Option String × GameState :=
  match gs.character with
  | none => (some "no character", gs)
  | some ch =>
    match gs.items itemID with
    | none => (some "item not found", gs)
    | some item =>
      if item.roomId ≠ some ch.currentRoomId then
        (some "item is not in this room", gs)
      else if item.characterId.isSome then
        (some "item is already being carried", gs)
      else
        (none, { gs with
          items := fun j =>
            if j = itemID then some { item with roomId := none, characterId := some ch.id }
            else gs.items j })

/-- `UseItem` from `state.go`: returns either the Go error or the message,
together with the resulting state; on success the consumed item is deleted
from the item mapping. -/
def GameState.useItem (gs : GameState) (itemID : Nat) :
    Except String String × GameState :=
  match gs.character with
  | none => (.error "no character", gs)
  | some ch =>
    match gs.items itemID with
    | none => (.error "item not found", gs)
    | some item =>
      if item.characterId ≠ some ch.id then
        (.error "item is not in your inventory", gs)
      else if item.type ≠ "consumable" then
        (.error "cannot use this item - it's not consumable", gs)
      else if 0 < item.healing then
        let ch' := ch.heal item.healing
        let healed := ch'.hp - ch.hp
        let iname := item.name
        let hpv := ch'.hp
        let mhpv := ch.maxHp
        (.ok s!"You drink the {iname} and recover {healed} HP! (HP: {hpv}/{mhpv})",
          { gs with
            character := some ch'
            items := fun j => if j = itemID then none else gs.items j })
      else
        let iname := item.name
        (.ok s!"You use the {iname}.",
          { gs with items := fun j => if j = itemID then none else gs.items j })

/-- `KillMonster` (the loot drop is stubbed to nothing in the source). -/
def GameState.killMonster (gs : GameState) (monsterID : Nat) : GameState :=
  { gs with monsters := gs.monsters.map fun m =>
      if m.id = monsterID then { m with isAlive := false, hp := 0 } else m }

/-- `KillCharacter`. -/
def GameState.killCharacter (gs : GameState) : GameState :=
  match gs.character with
  | none => gs
  | some ch =>
    { gs with
      character := some { ch with isAlive := false, hp := 0, diedAtSet := true }
      gameOver := true, victory := false }

/-- `AddRoom` (the `RoomsByCoord` index is not modelled). -/
def GameState.addRoom (gs : GameState) (room : Room) : GameState :=
  { gs with rooms := fun i => if i = room.id then some room else gs.rooms i }

/-- `AddConnection`. -/
def GameState.addConnection (gs : GameState) (cn : RoomConnection) : GameState :=
  { gs with connections := gs.connections ++ [cn] }

/-- `AddMonster`. -/
def GameState.addMonster (gs : GameState) (m : Monster) : GameState :=
  { gs with monsters := gs.monsters ++ [m] }

/-- `AddItem`. -/
def GameState.addItem (gs : GameState) (it : Item) : GameState :=
  { gs with items := fun i => if i = it.id then some it else gs.items i }

/-- Modelled from the spec: `ResetTurnContext` re-creates the per-action
scratch (last event, combat result, inventory delta), keeping the counters
that have their own reset helpers. -/
def GameState.resetTurnContext (gs : GameState) : GameState :=
  let old := gs.turnContext.getD TurnContext.empty
  { gs with turnContext := some { TurnContext.empty with
      turnsInRoom := old.turnsInRoom, consecutiveCombat := old.consecutiveCombat } }

/-- Modelled from the spec: turn-counter helpers used by the orchestrator. -/
def GameState.withTurnContext (gs : GameState) (f : TurnContext → TurnContext) : GameState :=
  { gs with turnContext := gs.turnContext.map f }

def GameState.incrementTurnsInRoom (gs : GameState) : GameState :=
  gs.withTurnContext fun tc => { tc with turnsInRoom := tc.turnsInRoom + 1 }

def GameState.resetTurnsInRoom (gs : GameState) : GameState :=
  gs.withTurnContext fun tc => { tc with turnsInRoom := 0 }

def GameState.incrementConsecutiveCombat (gs : GameState) : GameState :=
  gs.withTurnContext fun tc => { tc with consecutiveCombat := tc.consecutiveCombat + 1 }

def GameState.resetConsecutiveCombat (gs : GameState) : GameState :=
  gs.withTurnContext fun tc => { tc with consecutiveCombat := 0 }

def GameState.setLastEvent (gs : GameState) (e : EventInfo) : GameState :=
  gs.withTurnContext fun tc => { tc with lastEvent := some e }

def GameState.setLastCombatResult (gs : GameState) (cr : EnhancedCombatResult) : GameState :=
  gs.withTurnContext fun tc => { tc with lastCombatResult := some cr }

def GameState.recordItemTaken (gs : GameState) (iid : String) : GameState :=
  gs.withTurnContext fun tc => { tc with newItems := tc.newItems ++ [iid] }

def GameState.recordItemUsed (gs : GameState) (iid : String) : GameState :=
  gs.withTurnContext fun tc => { tc with usedItems := tc.usedItems ++ [iid] }

def GameState.recordMonsterDefeated (gs : GameState) (mid : String) : GameState :=
  gs.withTurnContext fun tc => { tc with defeatedMonsters := tc.defeatedMonsters ++ [mid] }

/-! ## Movement errors (C6) -/

/-- C6: `MoveCharacter` fails whenever there is no character, the character
is dead, an alive monster occupies the current room, or the current room has
no exit in the requested direction — and in every one of these failing cases
the whole game state (in particular `currentRoomId`) is left unchanged. -/
theorem moveCharacter_failure_cases (gs : GameState) (direction : String)
    (h : gs.character = none ∨
      ∃ ch, gs.character = some ch ∧
        (ch.isAlive = false ∨ gs.hasMonstersInRoom ch.currentRoomId = true ∨
          gs.roomExit ch.currentRoomId direction = none)) :
    (gs.moveCharacter direction).1.isSome ∧ (gs.moveCharacter direction).2 = gs := by
  unfold GameState.moveCharacter
  rcases h with hnone | ⟨ch, hch, hcase⟩
  · rw [hnone]
    exact ⟨rfl, rfl⟩
  · rw [hch]
    dsimp only
    rcases hcase with h1 | h2 | h3
    · rw [if_pos h1]
      exact ⟨rfl, rfl⟩
    · by_cases ha : ch.isAlive = false
      · rw [if_pos ha]
        exact ⟨rfl, rfl⟩
      · rw [if_neg ha, if_pos h2]
        exact ⟨rfl, rfl⟩
    · by_cases ha : ch.isAlive = false
      · rw [if_pos ha]
        exact ⟨rfl, rfl⟩
      · by_cases hm : gs.hasMonstersInRoom ch.currentRoomId = true
        · rw [if_neg ha, if_pos hm]
          exact ⟨rfl, rfl⟩
        · rw [if_neg ha, if_neg hm, h3]
          exact ⟨rfl, rfl⟩

theorem moveCharacter_failure_cases_witness :
    (newGameState.character = none ∨
      ∃ ch, newGameState.character = some ch ∧
        (ch.isAlive = false ∨ newGameState.hasMonstersInRoom ch.currentRoomId = true ∨
          newGameState.roomExit ch.currentRoomId "north" = none)) ∧
      (newGameState.moveCharacter "north").1.isSome ∧
      (newGameState.moveCharacter "north").2 = newGameState :=
  ⟨Or.inl rfl, moveCharacter_failure_cases newGameState "north" (Or.inl rfl)⟩

/-! ## Take-then-use of a healing consumable (C7) -/

/-- C7: for a healing consumable lying in the character's current room,
`TakeItem` then `UseItem` both succeed; the character's hp goes to
`min (hp + healing) maxHp` — a strict increase unless already at `maxHp`, in
which case it is unchanged — never exceeding `maxHp`, and the item is
removed from the global item mapping. -/
theorem takeItem_useItem_healing (gs : GameState) (ch : Character) (iid : Nat) (it : Item)
    (hch : gs.character = some ch)
    (hit : gs.items iid = some it)
    (hroom : it.roomId = some ch.currentRoomId)
    (hfree : it.characterId = none)
    (htype : it.type = "consumable")
    (hheal : 0 < it.healing) :
    (gs.takeItem iid).1 = none ∧
      ∃ (msg : String) (ch' : Character),
        ((gs.takeItem iid).2.useItem iid).1 = .ok msg ∧
        ((gs.takeItem iid).2.useItem iid).2.character = some ch' ∧
        ch'.hp = min (ch.hp + it.healing) ch.maxHp ∧
        (ch.hp < ch.maxHp → ch.hp < ch'.hp) ∧
        (ch.hp = ch.maxHp → ch'.hp = ch.hp) ∧
        ch'.hp ≤ ch.maxHp ∧
        ((gs.takeItem iid).2.useItem iid).2.items iid = none := by
  have htake : gs.takeItem iid =
      (none, { gs with
        items := fun j =>
          if j = iid then some { it with roomId := none, characterId := some ch.id }
          else gs.items j }) := by
    unfold GameState.takeItem
    rw [hch, hit]
    dsimp only
    rw [if_neg (by simp [hroom]), if_neg (by simp [hfree])]
  rw [htake]
  refine ⟨rfl, ?_⟩
  unfold GameState.useItem
  dsimp only
  rw [hch]
  dsimp only
  rw [if_pos (rfl : iid = iid)]
  dsimp only
  rw [if_neg (by simp), if_neg (by simp [htype]), if_pos hheal]
  refine ⟨_, ch.heal it.healing, rfl, rfl, ?_, ?_, ?_, ?_, by simp⟩ <;>
    simp only [Character.heal] <;> omega

/-- A wounded character standing in room 1. -/
def hero7 : Character := { heroSample with currentRoomId := 1, hp := 12 }

/-- The starter healing potion, lying in room 1. -/
def potionSample : Item :=
  { id := 70, name := "Health Potion", description := "A red vial that restores health."
    type := "consumable", damage := 0, armor := 0, healing := 10, rarity := ""
    roomId := some 1, characterId := none, isEquipped := false }

/-- A small initialized game state for witnesses: the wounded character and
the potion share room 1. -/
def gs7sample : GameState :=
  { newGameState with
    character := some hero7
    dungeon := some ⟨26, 1⟩
    items := fun j => if j = 70 then some potionSample else none }

theorem takeItem_useItem_healing_witness :
    ((gs7sample.takeItem 70).1 = none ∧
      ∃ (msg : String) (ch' : Character),
        ((gs7sample.takeItem 70).2.useItem 70).1 = .ok msg ∧
        ((gs7sample.takeItem 70).2.useItem 70).2.character = some ch' ∧
        ch'.hp = min (hero7.hp + potionSample.healing) hero7.maxHp ∧
        (hero7.hp < hero7.maxHp → hero7.hp < ch'.hp) ∧
        (hero7.hp = hero7.maxHp → ch'.hp = hero7.hp) ∧
        ch'.hp ≤ hero7.maxHp ∧
        ((gs7sample.takeItem 70).2.useItem 70).2.items 70 = none) :=
  takeItem_useItem_healing gs7sample hero7 70 potionSample rfl rfl rfl rfl rfl
    (by decide)

/-! ## The character hp/alive invariant (C8) -/

/-- The spec's character invariant: `hp ∈ [0, maxHp]` and
`isAlive ⇔ hp > 0`. -/
def CharInvariant (c : Character) : Prop :=
  0 ≤ c.hp ∧ c.hp ≤ c.maxHp ∧ (c.isAlive = true ↔ 0 < c.hp)

instance (c : Character) : Decidable (CharInvariant c) := by
  unfold CharInvariant
  infer_instance

theorem charInv_newCharacter (id : Nat) (name : String) :
    CharInvariant (newCharacter id name) := by
  unfold CharInvariant newCharacter
  norm_num

theorem charInv_takeDamage (c : Character) (dmg : Int) (hd : 0 ≤ dmg)
    (h : CharInvariant c) : CharInvariant (c.takeDamage dmg) := by
  obtain ⟨h1, h2, h3⟩ := h
  unfold Character.takeDamage CharInvariant
  dsimp only
  split
  · exact ⟨le_refl 0, by dsimp only; omega, by simp⟩
  · rename_i hgt
    push_neg at hgt
    have halive : c.isAlive = true := h3.mpr (by omega)
    dsimp only
    refine ⟨by omega, by omega, ?_⟩
    rw [halive]
    exact ⟨fun _ => by omega, fun _ => rfl⟩

theorem charInv_heal_alive (c : Character) (amt : Nat) (h : CharInvariant c)
    (ha : c.isAlive = true) : CharInvariant (c.heal amt) := by
  obtain ⟨h1, h2, h3⟩ := h
  have hpos := h3.mp ha
  unfold Character.heal CharInvariant
  dsimp only
  refine ⟨?_, ?_, ?_⟩
  · split <;> omega
  · split <;> omega
  · rw [ha]
    exact ⟨fun _ => by split <;> omega, fun _ => rfl⟩

theorem moveCharacter_character (gs : GameState) (dir : String) :
    (gs.moveCharacter dir).2.character = gs.character ∨
      ∃ ch rid, gs.character = some ch ∧
        (gs.moveCharacter dir).2.character = some { ch with currentRoomId := rid } := by
  unfold GameState.moveCharacter
  cases hch : gs.character with
  | none =>
    exact Or.inl hch
  | some ch =>
    dsimp only
    split
    · exact Or.inl hch
    · split
      · exact Or.inl hch
      · split
        · exact Or.inl hch
        · split
          · split
            · exact Or.inr ⟨ch, _, rfl, rfl⟩
            · exact Or.inr ⟨ch, _, rfl, rfl⟩
          · exact Or.inr ⟨ch, _, rfl, rfl⟩

theorem charInv_moveCharacter (gs : GameState) (dir : String) (c c' : Character)
    (hch : gs.character = some c) (h : CharInvariant c)
    (hc' : (gs.moveCharacter dir).2.character = some c') : CharInvariant c' := by
  rcases moveCharacter_character gs dir with heq | ⟨ch, rid, hch2, heq⟩
  · rw [heq, hch] at hc'
    injection hc' with h'
    subst h'
    exact h
  · rw [hch2] at hch
    injection hch with h0
    subst h0
    rw [heq] at hc'
    injection hc' with h'
    subst h'
    exact h

theorem charInv_killCharacter (gs : GameState) (c c' : Character)
    (hch : gs.character = some c) (h : CharInvariant c)
    (hc' : gs.killCharacter.character = some c') : CharInvariant c' := by
  unfold GameState.killCharacter at hc'
  rw [hch] at hc'
  dsimp only at hc'
  injection hc' with h'
  subst h'
  obtain ⟨h1, h2, -⟩ := h
  exact ⟨le_refl 0, by dsimp only; omega, by simp⟩

theorem useItem_character (gs : GameState) (iid : Nat) :
    ((gs.useItem iid).2).character = gs.character ∨
      ∃ ch it, gs.character = some ch ∧ gs.items iid = some it ∧
        ((gs.useItem iid).2).character = some (ch.heal it.healing) := by
  unfold GameState.useItem
  cases hch : gs.character with
  | none =>
    exact Or.inl hch
  | some ch =>
    dsimp only
    cases hit : gs.items iid with
    | none =>
      exact Or.inl hch
    | some it =>
      dsimp only
      split
      · exact Or.inl hch
      · split
        · exact Or.inl hch
        · split
          · exact Or.inr ⟨ch, it, rfl, rfl, rfl⟩
          · exact Or.inl rfl

theorem charInv_useItem (gs : GameState) (iid : Nat) (c c' : Character)
    (hch : gs.character = some c) (h : CharInvariant c) (ha : c.isAlive = true)
    (hc' : ((gs.useItem iid).2).character = some c') : CharInvariant c' := by
  rcases useItem_character gs iid with heq | ⟨ch, it, hch2, -, heq⟩
  · rw [heq, hch] at hc'
    injection hc' with h'
    subst h'
    exact h
  · rw [hch2] at hch
    injection hch with h0
    subst h0
    rw [heq] at hc'
    injection hc' with h'
    subst h'
    exact charInv_heal_alive _ it.healing h ha

theorem monsterPhase_player_cases (player : Character) (monster' : Monster)
    (armorBonus : Nat) (result : CombatResult) (pa : AttackResult) (r : Rng) :
    (monsterPhase player monster' armorBonus result pa r).player = player ∨
      ∃ dmg : Int, 1 ≤ dmg ∧
        (monsterPhase player monster' armorBonus result pa r).player =
          player.takeDamage dmg := by
  unfold monsterPhase
  dsimp only
  split
  · split
    · split
      · exact Or.inr ⟨1, le_refl 1, rfl⟩
      · exact Or.inr ⟨1, le_refl 1, rfl⟩
    · split
      · exact Or.inr ⟨_, by omega, rfl⟩
      · exact Or.inr ⟨_, by omega, rfl⟩
  · exact Or.inl rfl

theorem executeCombatTurn_player_cases (p : Character) (m : Monster) (act : String)
    (wb ab : Nat) (r : Rng) :
    (executeCombatTurn p m act wb ab r).player = p ∨
      ∃ dmg : Int, 1 ≤ dmg ∧
        (executeCombatTurn p m act wb ab r).player = p.takeDamage dmg := by
  unfold executeCombatTurn
  dsimp only
  split
  · split
    · split
      · exact Or.inl rfl
      · exact monsterPhase_player_cases _ _ _ _ _ _
    · split
      · exact Or.inl rfl
      · exact monsterPhase_player_cases _ _ _ _ _ _
  · exact monsterPhase_player_cases _ _ _ _ _ _

theorem charInv_executeCombatTurn (p : Character) (m : Monster) (act : String)
    (wb ab : Nat) (r : Rng) (h : CharInvariant p) :
    CharInvariant (executeCombatTurn p m act wb ab r).player := by
  rcases executeCombatTurn_player_cases p m act wb ab r with heq | ⟨dmg, hdmg, heq⟩
  · rw [heq]
    exact h
  · rw [heq]
    exact charInv_takeDamage p dmg (by omega) h

/-- A dead character satisfying the invariant. -/
def deadSample : Character :=
  { heroSample with hp := 0, isAlive := false, diedAtSet := true }

/-- C8, counterexample: `Heal` (and hence `UseItem`) does not preserve
`isAlive ⇔ hp > 0` on a dead character — it raises hp above 0 while leaving
`isAlive` false — so the invariant is not preserved by every listed
operation unconditionally. -/
theorem character_invariant_not_preserved_by_heal :
    ¬ ∀ (c : Character) (amt : Nat), CharInvariant c → CharInvariant (c.heal amt) := by
  intro hall
  have h1 : CharInvariant deadSample := by decide
  have h2 := hall deadSample 10 h1
  revert h2
  decide

/-- C8, amended: the invariant `hp ∈ [0, maxHp] ∧ (isAlive ⇔ hp > 0)` holds
for a newly created character and is preserved by `TakeDamage` (for the
non-negative damage every call site passes), by `MoveCharacter`,
`KillCharacter` and `ExecuteCombatTurn` unconditionally, and by `Heal` and
`UseItem` whenever the character is alive (on a dead character they can
raise hp above 0 without reviving `isAlive`). -/
theorem character_invariant_preservation :
    (∀ (id : Nat) (name : String), CharInvariant (newCharacter id name)) ∧
    (∀ (c : Character) (dmg : Int), 0 ≤ dmg → CharInvariant c →
      CharInvariant (c.takeDamage dmg)) ∧
    (∀ (c : Character) (amt : Nat), CharInvariant c → c.isAlive = true →
      CharInvariant (c.heal amt)) ∧
    (∀ (gs : GameState) (dir : String) (c c' : Character), gs.character = some c →
      CharInvariant c → (gs.moveCharacter dir).2.character = some c' → CharInvariant c') ∧
    (∀ (gs : GameState) (c c' : Character), gs.character = some c → CharInvariant c →
      gs.killCharacter.character = some c' → CharInvariant c') ∧
    (∀ (gs : GameState) (iid : Nat) (c c' : Character), gs.character = some c →
      CharInvariant c → c.isAlive = true → ((gs.useItem iid).2).character = some c' →
      CharInvariant c') ∧
    (∀ (p : Character) (m : Monster) (act : String) (wb ab : Nat) (r : Rng),
      CharInvariant p → CharInvariant (executeCombatTurn p m act wb ab r).player) :=
  ⟨charInv_newCharacter, charInv_takeDamage, charInv_heal_alive, charInv_moveCharacter,
    charInv_killCharacter, charInv_useItem, charInv_executeCombatTurn⟩

theorem character_invariant_preservation_witness :
    CharInvariant (newCharacter 1 "Hero") ∧ 0 ≤ (5 : Int) ∧
      CharInvariant heroSample ∧ CharInvariant (heroSample.takeDamage 5) :=
  ⟨character_invariant_preservation.1 1 "Hero", by decide, by decide,
    character_invariant_preservation.2.1 heroSample 5 (by decide) (by decide)⟩

/-! ## Room naming and population (`procgen.go`, continued)

Room entities get the ids `1 + y*5 + x` (generation order), the dungeon gets
id 26, the character id 27, and monsters/items draw fresh ids from a counter
starting at 28 — a deterministic stand-in for Go's crypto-random id strings. -/

def adjectives : List String :=
  ["Dark", "Dusty", "Ancient", "Forgotten", "Cursed", "Silent", "Echoing",
   "Gloomy", "Damp", "Musty"]

def nouns : List String :=
  ["Chamber", "Hall", "Corridor", "Vault", "Crypt", "Passage", "Alcove",
   "Sanctum", "Den", "Lair"]

/-- `generateRoomName`. -/
def generateRoomName (r : Rng) : String × Rng :=
  let p1 := r.intn adjectives.length
  let p2 := p1.2.intn nouns.length
  let adj := adjectives.getD p1.1 ""
  let noun := nouns.getD p2.1 ""
  (adj ++ " " ++ noun, p2.2)

def roomDescriptions : List String :=
  ["Cold stone walls surround you. Water drips somewhere in the darkness.",
   "Cobwebs hang from the ceiling. The air smells of decay.",
   "Torches flicker weakly on the walls, casting dancing shadows.",
   "Bones are scattered across the floor. Something died here.",
   "Strange runes are carved into the walls, pulsing with faint light.",
   "The ceiling is low here, forcing you to crouch slightly.",
   "Claw marks score the stone walls. Something large passed through.",
   "A cold draft blows through, carrying whispers from deeper within."]

/-- `generateRoomDescription`: fixed texts for entrance/exit, otherwise a
weighted draw biased toward the scarier back half when the Manhattan
distance exceeds 4. -/
def generateRoomDescription (x y : Nat) (r : Rng) : String × Rng :=
  if x = 0 ∧ y = 0 then
    ("The entrance to the dungeon. Faint light filters in from behind you.", r)
  else if x = gridSize - 1 ∧ y = gridSize - 1 then
    ("A grand chamber with an ornate door leading to freedom!", r)
  else
    let distance := x + y
    let p1 := r.intn roomDescriptions.length
    if 4 < distance then
      let pb := p1.2.chance
      if pb.1 then
        let p2 := pb.2.intn 3
        (roomDescriptions.getD (p2.1 + 5) "", p2.2)
      else (roomDescriptions.getD p1.1 "", pb.2)
    else (roomDescriptions.getD p1.1 "", p1.2)

/-- The id of the room generated at grid cell `(x, y)`. -/
def coordRoomId (x y : Nat) : Nat := 1 + y * gridSize + x

/-- The grid cells in generation order (`y` outer, `x` inner). -/
def gridCellsNat : List (Nat × Nat) :=
  ((List.range gridSize).map fun y : Nat =>
    (List.range gridSize).map fun x : Nat => (x, y)).flatten

/-- The room-construction loop of `generateGrid`. -/
def genGridAux : List (Nat × Nat) → Nat → Rng → List Room × Rng
  | [], _, r => ([], r)
  | (x, y) :: rest, did, r =>
    let pn := generateRoomName r
    let pd := generateRoomDescription x y pn.2
    let room : Room :=
      { id := coordRoomId x y, dungeonId := did, name := pn.1, description := pd.1
        isEntrance := x == 0 && y == 0
        isExit := x == gridSize - 1 && y == gridSize - 1
        x := (x : Int), y := (y : Int) }
    let prest := genGridAux rest did pd.2
    (room :: prest.1, prest.2)

/-- `GenerateDungeon`: grid, then connections (converted to id-level
`RoomConnection` records, numbered from 1000). -/
def generateDungeon (depth : Nat) (r : Rng) :
    Dungeon × List Room × List RoomConnection × Rng :=
  let dungeon : Dungeon := { id := 26, depth := depth }
  let pg := genGridAux gridCellsNat dungeon.id r
  let pc := generateConnections pg.2
  let conns := (connectionsOf pc.1).enum.map fun pr =>
    { id := 1000 + pr.1
      roomId := coordRoomId pr.2.src.1.toNat pr.2.src.2.toNat
      direction := pr.2.dir.toName
      connectedRoomId := coordRoomId pr.2.dst.1.toNat pr.2.dst.2.toNat }
  (dungeon, pg.1, conns, pc.2)

/-- `MonsterTemplate`. -/
structure MonsterTemplate where
  name : String
  description : String
  baseHP : Nat
  baseDamage : Nat
  minDiff : Nat
deriving DecidableEq, Repr

def monsterTemplates : List MonsterTemplate :=
  [⟨"Rat", "A large, mangy rat with beady red eyes.", 5, 2, 0⟩,
   ⟨"Goblin", "A small, green-skinned creature with a wicked grin.", 10, 4, 1⟩,
   ⟨"Skeleton", "The animated bones of a long-dead warrior.", 15, 5, 2⟩,
   ⟨"Orc", "A hulking brute with tusks and a massive club.", 25, 8, 3⟩,
   ⟨"Wraith", "A shadowy figure that chills you to the bone.", 20, 7, 4⟩]

/-- `ItemTemplate`. -/
structure ItemTemplate where
  name : String
  description : String
  type : String
  damage : Nat
  armor : Nat
  healing : Nat
deriving DecidableEq, Repr

def itemTemplates : List ItemTemplate :=
  [⟨"Health Potion", "A red vial that restores health.", "consumable", 0, 0, 10⟩,
   ⟨"Greater Health Potion", "A large red vial that restores significant health.",
     "consumable", 0, 0, 20⟩,
   ⟨"Rusty Sword", "An old sword, still sharp enough to cut.", "weapon", 3, 0, 0⟩,
   ⟨"Short Sword", "A well-balanced blade.", "weapon", 5, 0, 0⟩,
   ⟨"Wooden Shield", "A simple wooden shield that provides basic protection.",
     "armor", 0, 2, 0⟩,
   ⟨"Iron Shield", "A sturdy iron shield.", "armor", 0, 4, 0⟩]

/-- `int(float64(base) * (1 + 0.15*difficulty))`, computed exactly as the
rational `base * (20 + 3*difficulty) / 20` truncated (the float and rational
computations agree on these small values). -/
def scaleStat (base difficulty : Nat) : Nat :=
  base * (20 + 3 * difficulty) / 20

/-- Result of populating rooms: spawned entities, next fresh id, advanced
random source. -/
structure PopResult where
  monsters : List Monster
  items : List Item
  nextId : Nat
  rng : Rng

/-- The monster-spawning loop of `PopulateRoom`. -/
def spawnMonsters : Nat → List MonsterTemplate → Nat → Nat → Nat → Rng →
    List Monster × Nat × Rng
  | 0, _, _, _, idc, r => ([], idc, r)
  | n + 1, eligible, roomId, difficulty, idc, r =>
    let pk := r.intn eligible.length
    let t := eligible.getD pk.1 ⟨"", "", 0, 0, 0⟩
    let monster : Monster :=
      { id := idc, name := t.name, description := t.description
        hp := (scaleStat t.baseHP difficulty : Nat)
        maxHp := (scaleStat t.baseHP difficulty : Nat)
        damage := scaleStat t.baseDamage difficulty
        roomId := roomId, isAlive := true }
    let prest := spawnMonsters n eligible roomId difficulty (idc + 1) pk.2
    (monster :: prest.1, prest.2)

/-- `PopulateRoom`: the entrance gets exactly one starter potion, the exit
nothing; other rooms spawn monsters with probability 0.7 (two when
`difficulty ≥ 3` with probability 0.4) from the difficulty-eligible
templates, and one random item with probability `min 0.5 (0.25 + 0.05d)`.
Probability draws are `Rng.chance` outcomes. -/
def populateRoom (room : Room) (difficulty : Nat) (idc : Nat) (r : Rng) : PopResult :=
  if room.isEntrance then
    { monsters := []
      items := [{ id := idc, name := "Health Potion"
                  description := "A red vial that restores health."
                  type := "consumable", damage := 0, armor := 0, healing := 10
                  rarity := "", roomId := some room.id, characterId := none
                  isEquipped := false }]
      nextId := idc + 1, rng := r }
  else if room.isExit then
    { monsters := [], items := [], nextId := idc, rng := r }
  else
    let eligible := monsterTemplates.filter fun mt => mt.minDiff ≤ difficulty
    let pm : List Monster × Nat × Rng :=
      if 0 < eligible.length then
        let pc := r.chance
        if pc.1 then
          let pn : Nat × Rng :=
            if 3 ≤ difficulty then
              let pb := pc.2.chance
              (if pb.1 then 2 else 1, pb.2)
            else (1, pc.2)
          spawnMonsters pn.1 eligible room.id difficulty idc pn.2
        else ([], idc, pc.2)
      else ([], idc, r)
    let pi := pm.2.2.chance
    if pi.1 then
      let pt := pi.2.intn itemTemplates.length
      let t := itemTemplates.getD pt.1 ⟨"", "", "", 0, 0, 0⟩
      let item : Item :=
        { id := pm.2.1, name := t.name, description := t.description, type := t.type
          damage := t.damage, armor := t.armor, healing := t.healing, rarity := ""
          roomId := some room.id, characterId := none, isEquipped := false }
      { monsters := pm.1, items := [item], nextId := pm.2.1 + 1, rng := pt.2 }
    else
      { monsters := pm.1, items := [], nextId := pm.2.1, rng := pi.2 }

/-- The room-population loop of `handleNewGame`
(difficulty = Manhattan distance from the entrance). -/
def populateAll : List Room → Nat → Rng → PopResult
  | [], idc, r => { monsters := [], items := [], nextId := idc, rng := r }
  | room :: rest, idc, r =>
    let p := populateRoom room (room.x + room.y).toNat idc r
    let prest := populateAll rest p.nextId p.rng
    { monsters := p.monsters ++ prest.monsters, items := p.items ++ prest.items
      nextId := prest.nextId, rng := prest.rng }

/-! ## Tool dispatch (`internal/mcp/server.go`)

Entity-id tool arguments are the decimal form of the `Nat` id tokens; any
other string names an absent map key, as in Go. -/

/-- The value found under a key of the `map[string]interface{}` arguments:
a string, or something that fails the `.(string)` assertion. -/
inductive ArgVal
  | str (s : String)
  | other
deriving DecidableEq, Repr

/-- The `arguments` map of `CallTool`. -/
def Args := String → Option ArgVal

/-- A single-key argument map. -/
def mkArgs (key val : String) : Args :=
  fun k => if k = key then some (.str val) else none

/-- `ToolResult`, reduced to its narrative text and error flag (the
`gameState` snapshot is a read-only projection and is not modelled). -/
structure ToolResult where
  text : String
  isError : Bool
deriving DecidableEq, Repr

def errNoGame : String := "No game in progress. Use 'new_game' to start."

def errGameOver : String := "Game is over. Use 'new_game' to play again."

def errVictory : String :=
  "You have escaped the dungeon! Victory! Use 'new_game' to play again."

def errDead : String := "You are dead. Use 'new_game' to play again."

/-- `requireActiveGame`: used by `look` and `move`; distinguishes victory
from death in its game-over message. -/
def requireActiveGame (gs : GameState) : Option ToolResult :=
  if gs.isInitialized = false then some ⟨errNoGame, false⟩
  else if gs.gameOver then
    if gs.victory then some ⟨errVictory, false⟩ else some ⟨errDead, false⟩
  else none

/-- `requireActiveGameForAction`: used by `attack`, `take`, `use` and
`equip`; its game-over message does not distinguish victory from death. -/
def requireActiveGameForAction (gs : GameState) : Option ToolResult :=
  if gs.isInitialized = false then some ⟨errNoGame, false⟩
  else if gs.gameOver then some ⟨errGameOver, false⟩
  else none

/-- `requireInitialized` (read-only tools). -/
def requireInitialized (gs : GameState) : Option ToolResult :=
  if gs.isInitialized = false then some ⟨errNoGame, false⟩ else none

def beginTurn (gs : GameState) : GameState :=
  gs.resetTurnContext.incrementTurnsInRoom

def beginCombatTurn (gs : GameState) : GameState :=
  gs.resetTurnContext.incrementTurnsInRoom.incrementConsecutiveCombat

def beginMovementTurn (gs : GameState) : GameState :=
  gs.resetTurnContext.resetTurnsInRoom.resetConsecutiveCombat

/-- `handleNewGame`: reset the state, create the character, generate and
populate the dungeon, place the character at the entrance, and greet. -/
def handleNewGame (characterName : String) (r : Rng) : ToolResult × GameState × Rng :=
  let character := newCharacter 27 characterName
  let gd := generateDungeon 1 r
  let gs1 := { newGameState with character := some character, dungeon := some gd.1 }
  let gs2 := gd.2.1.foldl GameState.addRoom gs1
  let gs3 := gd.2.2.1.foldl GameState.addConnection gs2
  let gs4 :=
    match gd.2.1.find? (fun room => room.isEntrance) with
    | some room =>
      ({ gs3 with character := some { character with currentRoomId := room.id }
        }).markRoomVisited room.id
    | none => gs3
  let pp := populateAll gd.2.1 28 gd.2.2.2
  let gs5 := pp.items.foldl GameState.addItem (pp.monsters.foldl GameState.addMonster gs4)
  let gs6 := gs5.resetTurnContext.setLastEvent ⟨"interaction", "game_start", []⟩
  let hpv := character.hp
  let mhpv := character.maxHp
  let strv := character.strength
  let dexv := character.dexterity
  let nm := character.name
  let msg := "=== NEW GAME STARTED ===\n\n" ++
    s!"Welcome, {nm}!\n\n" ++
    "You find yourself at the entrance of a dark dungeon.\n" ++
    "Your goal: reach the exit on the other side.\n" ++
    "Beware of the monsters that lurk within!\n\n" ++
    s!"Stats: HP {hpv}/{mhpv} | STR {strv} | DEX {dexv}\n\n" ++
    "Use 'look' to see your surroundings."
  (⟨msg, false⟩, gs6, pp.rng)

/-- `handleMove`. -/
def handleMove (gs : GameState) (direction : String) : ToolResult × GameState :=
  match requireActiveGame gs with
  | some res => (res, gs)
  | none =>
    let gs1 := beginMovementTurn gs
    let mv := gs1.moveCharacter direction
    match mv.1 with
    | some err => (⟨err, false⟩, mv.2)
    | none =>
      let gs2 := mv.2.setLastEvent ⟨"movement", "room_enter", []⟩
      if gs2.victory then
        let gs3 := gs2.setLastEvent ⟨"victory", "dungeon_escaped", []⟩
        (⟨"You step through the exit and escape the dungeon!\n\n🏆 VICTORY! 🏆\n\nCongratulations, brave adventurer! Use 'new_game' to play again.", false⟩, gs3)
      else
        match gs2.getCurrentRoom with
        | none => (⟨"", true⟩, gs2)
        | some newRoom =>
          let nm := newRoom.name
          let ds := newRoom.description
          let ms := gs2.getRoomMonsters newRoom.id
          let monsterLines := ms.foldl (fun acc m =>
            let mn := m.name
            let mh := m.hp
            let mm := m.maxHp
            let mi := m.id
            acc ++ s!"  - {mn} (HP: {mh}/{mm}) [ID: {mi}]\n") ""
          let danger :=
            if 0 < ms.length then "\n⚔️  Danger! Monsters ahead!\n" ++ monsterLines else ""
          (⟨s!"You move {direction}...\n\n=== {nm} ===\n\n{ds}\n" ++ danger, false⟩, gs2)

/-- `handleAttack`. -/
def handleAttack (gs : GameState) (targetID : String) (r : Rng) :
    ToolResult × GameState × Rng :=
  match requireActiveGameForAction gs with
  | some res => (res, gs, r)
  | none =>
    match gs.monsters.find? (fun m => toString m.id == targetID) with
    | none => (⟨"Monster not found. Use 'look' to see available targets.", false⟩, gs, r)
    | some monster =>
      match gs.character with
      | none => (⟨errNoGame, false⟩, gs, r)
      | some ch =>
        if monster.roomId != ch.currentRoomId then
          (⟨"That monster is not in this room.", false⟩, gs, r)
        else if monster.isAlive = false then
          (⟨"That monster is already dead.", false⟩, gs, r)
        else
          let gs1 := beginCombatTurn gs
          let weaponBonus :=
            match ch.equippedWeaponId with
            | some wid =>
              match gs1.items wid with
              | some w => w.damage
              | none => 0
            | none => 0
          let armorBonus :=
            match ch.equippedArmorId with
            | some aid =>
              match gs1.items aid with
              | some a => a.armor
              | none => 0
            | none => 0
          let co := executeCombatTurn ch monster "attack" weaponBonus armorBonus r
          let gs2 := { gs1 with
            character := some co.player
            monsters := gs1.monsters.map fun (m : Monster) =>
              if m.id = monster.id then co.monster else m }
          let gs3 := gs2.setLastCombatResult co.enhanced
          let eventSubtype :=
            match co.enhanced.playerAttack with
            | some pa => if pa.wasHit = false then "attack_miss" else "attack_hit"
            | none => "attack_hit"
          let sb0 := "=== COMBAT ===\n\n" ++ co.result.message ++ "\n"
          if co.result.attackerDied then
            let gs4 := gs3.killCharacter.setLastEvent ⟨"death", "player_died", [targetID]⟩
            (⟨sb0 ++ "\n💀 YOU HAVE DIED 💀\n\nUse 'new_game' to try again.", false⟩,
              gs4, co.rng)
          else if co.result.defenderDied then
            let gs4 := ((gs3.killMonster monster.id).recordMonsterDefeated targetID
              ).setLastEvent ⟨"combat", "enemy_defeated", [targetID]⟩
            let mn := monster.name
            let sb1 := sb0 ++ s!"\n✨ The {mn} has been defeated!\n"
            let sb2 :=
              if gs4.hasMonstersInRoom ch.currentRoomId then sb1
              else sb1 ++ "\nThe room is now clear. You may proceed."
            (⟨sb2, false⟩, gs4, co.rng)
          else
            (⟨sb0, false⟩, gs3.setLastEvent ⟨"combat", eventSubtype, [targetID]⟩, co.rng)

/-- `handleTake`. -/
def handleTake (gs : GameState) (itemID : String) : ToolResult × GameState :=
  match requireActiveGameForAction gs with
  | some res => (res, gs)
  | none =>
    match itemID.toNat?.bind gs.items with
    | none => (⟨"Item not found. Use 'look' to see available items.", false⟩, gs)
    | some item =>
      let gs1 := beginTurn gs
      let tk := gs1.takeItem (itemID.toNat?.getD 0)
      match tk.1 with
      | some err => (⟨err, false⟩, tk.2)
      | none =>
        let gs2 := (tk.2.recordItemTaken itemID).setLastEvent
          ⟨"discovery", "item_found", [itemID]⟩
        let nm := item.name
        (⟨s!"You pick up the {nm}.", false⟩, gs2)

/-- `UseItem` with the transport's string key. -/
def GameState.useItemKey (gs : GameState) (key : String) :
    Except String String × GameState :=
  match key.toNat? with
  | some iid => gs.useItem iid
  | none => (.error "item not found", gs)

/-- `handleUse`. -/
def handleUse (gs : GameState) (itemID : String) : ToolResult × GameState :=
  match requireActiveGameForAction gs with
  | some res => (res, gs)
  | none =>
    let gs1 := (beginTurn gs).recordItemUsed itemID
    let us := gs1.useItemKey itemID
    match us.1 with
    | .error err => (⟨err, false⟩, us.2)
    | .ok msg =>
      (⟨msg, false⟩, us.2.setLastEvent ⟨"interaction", "item_used", [itemID]⟩)

/-- `handleEquip`. -/
def handleEquip (gs : GameState) (itemID : String) : ToolResult × GameState :=
  match requireActiveGameForAction gs with
  | some res => (res, gs)
  | none =>
    match itemID.toNat? with
    | none => (⟨"Item not found. Use 'inventory' to see your items.", false⟩, gs)
    | some iid =>
      match gs.items iid with
      | none => (⟨"Item not found. Use 'inventory' to see your items.", false⟩, gs)
      | some item =>
        match gs.character with
        | none => (⟨errNoGame, false⟩, gs)
        | some ch =>
          if item.characterId ≠ some ch.id then
            (⟨"That item is not in your inventory. Pick it up first with 'take'.", false⟩, gs)
          else if item.type = "weapon" then
            let pOld : String × GameState :=
              match ch.equippedWeaponId with
              | some wid =>
                match gs.items wid with
                | some oldW =>
                  let onm := oldW.name
                  (s!"You unequip the {onm}.\n",
                    { gs with items := fun j =>
                        if j = wid then some { oldW with isEquipped := false }
                        else gs.items j })
                | none => ("", gs)
              | none => ("", gs)
            let gs2 := { pOld.2 with
              character := some { ch with equippedWeaponId := some item.id }
              items := fun j =>
                if j = iid then some { item with isEquipped := true }
                else pOld.2.items j }
            let nm := item.name
            let dmg := item.damage
            (⟨pOld.1 ++ s!"You equip the {nm}. (Damage +{dmg})", false⟩, gs2)
          else if item.type = "armor" then
            let pOld : String × GameState :=
              match ch.equippedArmorId with
              | some aid =>
                match gs.items aid with
                | some oldA =>
                  let onm := oldA.name
                  (s!"You unequip the {onm}.\n",
                    { gs with items := fun j =>
                        if j = aid then some { oldA with isEquipped := false }
                        else gs.items j })
                | none => ("", gs)
              | none => ("", gs)
            let gs2 := { pOld.2 with
              character := some { ch with equippedArmorId := some item.id }
              items := fun j =>
                if j = iid then some { item with isEquipped := true }
                else pOld.2.items j }
            let nm := item.name
            let arm := item.armor
            (⟨pOld.1 ++ s!"You equip the {nm}. (Armor +{arm})", false⟩, gs2)
          else
            let nm := item.name
            (⟨s!"Cannot equip {nm} - it's not a weapon or armor.", false⟩, gs)

/-- `CallTool`: argument validation and dispatch for the action tools
(`new_game` and the five state-mutating tools the claims concern; the
read-only tools touch no state).  A Go `error` return is `.error`. -/
def callTool (gs : GameState) (r : Rng) (name : String) (args : Args) :
    Except String (ToolResult × GameState × Rng) :=
  match name with
  | "new_game" =>
    let charName :=
      match args "character_name" with
      | some (.str s) => if s = "" then "Hero" else s
      | _ => "Hero"
    .ok (handleNewGame charName r)
  | "move" =>
    match args "direction" with
    | some (.str direction) =>
      let p := handleMove gs direction
      .ok (p.1, p.2, r)
    | _ => .error "invalid direction"
  | "attack" =>
    match args "target_id" with
    | some (.str targetID) => .ok (handleAttack gs targetID r)
    | _ => .error "invalid target_id"
  | "take" =>
    match args "item_id" with
    | some (.str itemID) =>
      let p := handleTake gs itemID
      .ok (p.1, p.2, r)
    | _ => .error "invalid item_id"
  | "use" =>
    match args "item_id" with
    | some (.str itemID) =>
      let p := handleUse gs itemID
      .ok (p.1, p.2, r)
    | _ => .error "invalid item_id"
  | "equip" =>
    match args "item_id" with
    | some (.str itemID) =>
      let p := handleEquip gs itemID
      .ok (p.1, p.2, r)
    | _ => .error "invalid item_id"
  | other => .error ("unknown tool: " ++ other)

/-! ## Game-over gating (C5) -/

/-- A game-over state reached by victory. -/
def gsVictorySample : GameState :=
  { newGameState with
    character := some heroSample
    dungeon := some ⟨26, 1⟩
    gameOver := true
    victory := true }

/-- A game-over state reached by death. -/
def gsDeathSample : GameState :=
  { newGameState with
    character := some { heroSample with hp := 0, isAlive := false, diedAtSet := true }
    dungeon := some ⟨26, 1⟩
    gameOver := true
    victory := false }

/-- C5, counterexample: once the game is over, `attack` (like `take`, `use`
and `equip`) is rejected with the generic game-over message in the victory
state just as in the death state — the rejection does not distinguish
Victory from Death, and is not the victory-terminal message. -/
theorem gameOver_attack_message_not_distinguishing :
    callTool gsVictorySample zeroRng "attack" (mkArgs "target_id" "60") =
        .ok (⟨errGameOver, false⟩, gsVictorySample, zeroRng) ∧
      callTool gsDeathSample zeroRng "attack" (mkArgs "target_id" "60") =
        .ok (⟨errGameOver, false⟩, gsDeathSample, zeroRng) ∧
      errGameOver ≠ errVictory ∧ errGameOver ≠ errDead := by
  refine ⟨rfl, rfl, ?_, ?_⟩ <;> decide

/-- C5, amended: once GameOver is set, every action-oriented tool call is
rejected without mutating the game state; `move` is rejected with the
message distinguishing Victory from Death, while `attack`, `take`, `use`
and `equip` are rejected with the generic game-over message (which does not
distinguish the two). -/
theorem gameOver_rejects_actions (gs : GameState) (r : Rng)
    (hinit : gs.isInitialized = true) (hover : gs.gameOver = true) :
    (∀ d, callTool gs r "move" (mkArgs "direction" d) =
      .ok (⟨if gs.victory then errVictory else errDead, false⟩, gs, r)) ∧
    (∀ t, callTool gs r "attack" (mkArgs "target_id" t) =
      .ok (⟨errGameOver, false⟩, gs, r)) ∧
    (∀ i, callTool gs r "take" (mkArgs "item_id" i) =
      .ok (⟨errGameOver, false⟩, gs, r)) ∧
    (∀ i, callTool gs r "use" (mkArgs "item_id" i) =
      .ok (⟨errGameOver, false⟩, gs, r)) ∧
    (∀ i, callTool gs r "equip" (mkArgs "item_id" i) =
      .ok (⟨errGameOver, false⟩, gs, r)) := by
  have hgate : requireActiveGame gs =
      some ⟨if gs.victory then errVictory else errDead, false⟩ := by
    unfold requireActiveGame
    rw [if_neg (by rw [hinit]; simp), if_pos hover]
    split <;> rfl
  have hgateA : requireActiveGameForAction gs = some ⟨errGameOver, false⟩ := by
    unfold requireActiveGameForAction
    rw [if_neg (by rw [hinit]; simp), if_pos hover]
  refine ⟨fun d => ?_, fun t => ?_, fun i => ?_, fun i => ?_, fun i => ?_⟩ <;>
    simp only [callTool, mkArgs, handleMove, handleAttack, handleTake, handleUse,
      handleEquip, hgate, hgateA, if_pos rfl, if_true]

theorem gameOver_rejects_actions_witness :
    gsVictorySample.isInitialized = true ∧ gsVictorySample.gameOver = true ∧
      callTool gsVictorySample zeroRng "move" (mkArgs "direction" "north") =
        .ok (⟨if gsVictorySample.victory then errVictory else errDead, false⟩,
          gsVictorySample, zeroRng) :=
  ⟨rfl, rfl, (gameOver_rejects_actions gsVictorySample zeroRng rfl rfl).1 "north"⟩

/-! ## `new_game` defaults (C10) -/

theorem genGridAux_cons (x y : Nat) (rest : List (Nat × Nat)) (did : Nat) (r : Rng) :
    (genGridAux ((x, y) :: rest) did r).1 =
      { id := coordRoomId x y, dungeonId := did
        name := (generateRoomName r).1
        description := (generateRoomDescription x y (generateRoomName r).2).1
        isEntrance := x == 0 && y == 0
        isExit := x == gridSize - 1 && y == gridSize - 1
        x := (x : Int), y := (y : Int) } ::
        (genGridAux rest did (generateRoomDescription x y (generateRoomName r).2).2).1 := by
  simp only [genGridAux]

theorem genGridAux_ids :
    ∀ (cells : List (Nat × Nat)) (did : Nat) (r : Rng),
      ∀ rm ∈ (genGridAux cells did r).1, ∃ p ∈ cells, rm.id = coordRoomId p.1 p.2
  | [], _, _, rm, h => by cases h
  | (x, y) :: rest, did, r, rm, h => by
    rw [genGridAux_cons] at h
    rcases List.mem_cons.mp h with rfl | h'
    · exact ⟨(x, y), List.mem_cons_self _ _, rfl⟩
    · obtain ⟨p, hp, hid⟩ := genGridAux_ids rest did _ rm h'
      exact ⟨p, List.mem_cons_of_mem _ hp, hid⟩

theorem foldl_preserves_character {α : Type} (f : GameState → α → GameState)
    (hc : ∀ gs a, (f gs a).character = gs.character) :
    ∀ (l : List α) (gs : GameState), (l.foldl f gs).character = gs.character
  | [], _ => rfl
  | a :: t, gs => by
    simp only [List.foldl_cons]
    exact (foldl_preserves_character f hc t (f gs a)).trans (hc gs a)

theorem foldl_preserves_rooms {α : Type} (f : GameState → α → GameState)
    (hr : ∀ gs a, (f gs a).rooms = gs.rooms) :
    ∀ (l : List α) (gs : GameState), (l.foldl f gs).rooms = gs.rooms
  | [], _ => rfl
  | a :: t, gs => by
    simp only [List.foldl_cons]
    exact (foldl_preserves_rooms f hr t (f gs a)).trans (hr gs a)

theorem foldl_addRoom_lookup_preserved :
    ∀ (l : List Room) (gs : GameState) (i : Nat),
      (∀ rm ∈ l, rm.id ≠ i) → (l.foldl GameState.addRoom gs).rooms i = gs.rooms i
  | [], _, _, _ => rfl
  | a :: t, gs, i, h => by
    simp only [List.foldl_cons]
    rw [foldl_addRoom_lookup_preserved t _ i fun rm hm => h rm (List.mem_cons_of_mem a hm)]
    show (if i = a.id then some a else gs.rooms i) = gs.rooms i
    rw [if_neg]
    exact fun hh => h a (List.mem_cons_self a t) hh.symm

theorem setLastEvent_character (gs : GameState) (e : EventInfo) :
    (gs.setLastEvent e).character = gs.character := rfl

theorem setLastEvent_rooms (gs : GameState) (e : EventInfo) :
    (gs.setLastEvent e).rooms = gs.rooms := rfl

theorem resetTurnContext_character (gs : GameState) :
    gs.resetTurnContext.character = gs.character := rfl

theorem resetTurnContext_rooms (gs : GameState) :
    gs.resetTurnContext.rooms = gs.rooms := rfl

theorem markRoomVisited_character (gs : GameState) (i : Nat) :
    (gs.markRoomVisited i).character = gs.character := rfl

theorem markRoomVisited_rooms (gs : GameState) (i : Nat) :
    (gs.markRoomVisited i).rooms = gs.rooms := rfl

theorem foldl_addItem_character (l : List Item) (gs : GameState) :
    (l.foldl GameState.addItem gs).character = gs.character :=
  foldl_preserves_character GameState.addItem (fun _ _ => rfl) l gs

theorem foldl_addMonster_character (l : List Monster) (gs : GameState) :
    (l.foldl GameState.addMonster gs).character = gs.character :=
  foldl_preserves_character GameState.addMonster (fun _ _ => rfl) l gs

theorem foldl_addItem_rooms (l : List Item) (gs : GameState) :
    (l.foldl GameState.addItem gs).rooms = gs.rooms :=
  foldl_preserves_rooms GameState.addItem (fun _ _ => rfl) l gs

theorem foldl_addMonster_rooms (l : List Monster) (gs : GameState) :
    (l.foldl GameState.addMonster gs).rooms = gs.rooms :=
  foldl_preserves_rooms GameState.addMonster (fun _ _ => rfl) l gs

theorem foldl_addConnection_rooms (l : List RoomConnection) (gs : GameState) :
    (l.foldl GameState.addConnection gs).rooms = gs.rooms :=
  foldl_preserves_rooms GameState.addConnection (fun _ _ => rfl) l gs

/-- The first generated room is the entrance, has id 1, and no other
generated room reuses id 1. -/
theorem generateDungeon_rooms_cons (depth : Nat) (r : Rng) :
    ∃ room0 rest,
      (generateDungeon depth r).2.1 = room0 :: rest ∧
      room0.id = 1 ∧ room0.isEntrance = true ∧ ∀ rm ∈ rest, rm.id ≠ 1 := by
  refine ⟨{
      id := 1
      dungeonId := 26
      name := (generateRoomName r).1
      description := (generateRoomDescription 0 0 (generateRoomName r).2).1
      isEntrance := true
      isExit := false
      x := 0
      y := 0 },
    (genGridAux gridCellsNat.tail 26
      (generateRoomDescription 0 0 (generateRoomName r).2).2).1, rfl, rfl, rfl, ?_⟩
  intro rm hm
  obtain ⟨p, hp, hid⟩ := genGridAux_ids gridCellsNat.tail 26 _ rm hm
  rw [hid]
  clear hid hm
  revert hp
  revert p
  decide

/-- `handleNewGame` succeeds and leaves the fresh character, with the
source defaults, in a room marked as the entrance. -/
theorem handleNewGame_places_hero (name : String) (r : Rng) :
    (handleNewGame name r).1.isError = false ∧
      ∃ ch room,
        (handleNewGame name r).2.1.character = some ch ∧
        ch.name = name ∧ ch.hp = 20 ∧ ch.maxHp = 20 ∧ ch.strength = 10 ∧
        ch.dexterity = 10 ∧ ch.isAlive = true ∧
        (handleNewGame name r).2.1.rooms ch.currentRoomId = some room ∧
        room.isEntrance = true := by
  obtain ⟨room0, rest, hrooms, hid1, hent, hids⟩ := generateDungeon_rooms_cons 1 r
  refine ⟨rfl, ?_⟩
  simp only [handleNewGame]
  rw [hrooms, List.find?_cons_of_pos _ hent]
  dsimp only
  refine ⟨{ newCharacter 27 name with currentRoomId := room0.id }, room0, ?_, rfl, rfl,
    rfl, rfl, rfl, rfl, ?_, hent⟩
  · simp only [setLastEvent_character, resetTurnContext_character, foldl_addItem_character,
      foldl_addMonster_character, markRoomVisited_character]
  · simp only [setLastEvent_rooms, resetTurnContext_rooms, foldl_addItem_rooms,
      foldl_addMonster_rooms, markRoomVisited_rooms, foldl_addConnection_rooms,
      List.foldl_cons]
    rw [foldl_addRoom_lookup_preserved rest _ room0.id ?_]
    · show (if room0.id = room0.id then some room0 else _) = some room0
      rw [if_pos rfl]
    · intro rm hm
      rw [hid1]
      exact hids rm hm

/-- C10: calling the `new_game` tool with a missing, non-string, or empty
`character_name` argument is not an argument error: the game starts with a
character named "Hero" (hp 20/20, strength 10, dexterity 10, alive) placed
in the entrance room. -/
theorem newGame_defaults_on_bad_name (gs : GameState) (r : Rng) (args : Args)
    (hname : args "character_name" = none ∨ args "character_name" = some ArgVal.other ∨
      args "character_name" = some (ArgVal.str "")) :
    ∃ res gs' r',
      callTool gs r "new_game" args = .ok (res, gs', r') ∧
      res.isError = false ∧
      ∃ ch room,
        gs'.character = some ch ∧
        ch.name = "Hero" ∧ ch.hp = 20 ∧ ch.maxHp = 20 ∧ ch.strength = 10 ∧
        ch.dexterity = 10 ∧ ch.isAlive = true ∧
        gs'.rooms ch.currentRoomId = some room ∧ room.isEntrance = true := by
  have hcall : callTool gs r "new_game" args = .ok (handleNewGame "Hero" r) := by
    simp only [callTool]
    rcases hname with h | h | h <;> rw [h]
    rfl
  obtain ⟨herr, ch, room, hrest⟩ := handleNewGame_places_hero "Hero" r
  refine ⟨(handleNewGame "Hero" r).1, (handleNewGame "Hero" r).2.1,
    (handleNewGame "Hero" r).2.2, ?_, herr, ch, room, hrest⟩
  rw [hcall]

theorem newGame_defaults_on_bad_name_witness :
    ((fun _ => none : Args) "character_name" = none ∨
      (fun _ => none : Args) "character_name" = some ArgVal.other ∨
      (fun _ => none : Args) "character_name" = some (ArgVal.str "")) ∧
    ∃ res gs' r',
      callTool newGameState zeroRng "new_game" (fun _ => none) = .ok (res, gs', r') ∧
      res.isError = false ∧
      ∃ ch room,
        gs'.character = some ch ∧
        ch.name = "Hero" ∧ ch.hp = 20 ∧ ch.maxHp = 20 ∧ ch.strength = 10 ∧
        ch.dexterity = 10 ∧ ch.isAlive = true ∧
        gs'.rooms ch.currentRoomId = some room ∧ room.isEntrance = true :=
  ⟨Or.inl rfl, newGame_defaults_on_bad_name newGameState zeroRng _ (Or.inl rfl)⟩

end Xrpg
